import Mathlib

/-!
Verification of the PDF extraction orchestration engine (Rust sources under
src/): a shallow embedding of the per-file extraction strategy chain
(`extractor.rs`), the fast content fingerprint, the SQLite-backed result
store (`database.rs`), and the bounded-concurrency scheduler, together with
theorems settling the specification's claims about them.

Conventions of the embedding:
- awaited external calls (filesystem metadata, direct PDF extraction, the
  system-tesseract OCR pipeline) are oracles passed in as `Except` values;
- byte strings are modelled as `Bytes` (length plus big-endian integer
  value), so Rust slice operations become arithmetic;
- `f64` durations are modelled as `Rat`; machine integers as `Int`/`Nat`
  (no overflow is relevant to the claims);
- the SQLite table is a list of rows; `INSERT OR REPLACE` under
  `UNIQUE(file_path, file_hash)` deletes the conflicting row (SQLite
  uniqueness never treats NULL as equal to anything) and appends the new
  row with a fresh insertion timestamp (`DEFAULT CURRENT_TIMESTAMP`).
-/

/-- Command-line arguments relevant to the orchestration core (cli.rs). -/
structure Args where
  threads : Nat
  full_hash : Bool
  text_only : Bool
  ocr_only : Bool
  force : Bool
deriving DecidableEq

/-- One extraction outcome, mirroring `ExtractionResult` in database.rs. -/
structure ExtractionResult where
  id : Option Int
  file_path : String
  file_hash : Option String
  file_size : Int
  extraction_method : String
  extracted_text : String
  page_count : Int
  processing_time_seconds : Rat
  timestamp : Nat
  success : Bool
  error_message : Option String
deriving DecidableEq

/-- The awaited external calls made while resolving one file, as oracles:
`tokio::fs::metadata(...).len()`, `calculate_file_hash`, direct extraction
(`PdfProcessor::extract_text_direct`), and the system-tesseract OCR
pipeline (`OcrProcessor::extract_with_system_tesseract`). -/
structure FileEnv where
  metadata_len : Except String Int
  hash_result : Except String String
  direct_result : Except String (String × Nat)
  ocr_system_result : Except String (String × Nat)

/-- Leading and trailing whitespace removal over the character list of a
string, modelling Rust `str::trim`. -/
def trimChars (l : List Char) : List Char :=
  ((l.dropWhile Char.isWhitespace).reverse.dropWhile Char.isWhitespace).reverse

/-- UTF-8 byte length of a character list; Rust `str::len` counts bytes. -/
def utf8Len (l : List Char) : Nat := (l.map Char.utf8Size).sum

/-- `PdfProcessor::has_extractable_text`: `text.trim().len() > 50` — the
length is the UTF-8 byte length of the trimmed text. -/
def has_extractable_text (text : String) : Bool :=
  50 < utf8Len (trimChars text.data)

/-- `OcrProcessor::extract_text_ocr` (ocr.rs): in text-only mode it fails
immediately with "OCR disabled"; otherwise it runs the system-tesseract
pipeline, whose result is the oracle. -/
def extract_text_ocr (text_only : Bool) (system : Except String (String × Nat)) :
    Except String (String × Nat) :=
  if text_only then Except.error "OCR disabled (text-only mode)" else system

/-- `PdfExtractor::process_single_file` (extractor.rs lines 99-205).
`elapsed` stands for `start_time.elapsed()` and `now` for the insertion
clock; both are opaque to the control flow. Metadata and hash failures
propagate with `?` (an `Except.error` return); extraction failures are
converted into a `method = "error"` outcome. -/
def process_single_file (args : Args) (env : FileEnv) (path : String)
    (elapsed : Rat) (now : Nat) : Except String ExtractionResult :=
  match env.metadata_len with
  | Except.error e => Except.error e
  | Except.ok file_size =>
    match env.hash_result with
    | Except.error e => Except.error e
    | Except.ok file_hash =>
      if args.ocr_only then
        match extract_text_ocr args.text_only env.ocr_system_result with
        | Except.ok (ocr_text, ocr_page_count) =>
          Except.ok ⟨none, path, some file_hash, file_size, "ocr", ocr_text,
            (ocr_page_count : Int), elapsed, now, true, none⟩
        | Except.error e =>
          Except.ok ⟨none, path, some file_hash, file_size, "error", "", 0,
            elapsed, now, false, some ("OCR failed: " ++ e)⟩
      else
        match env.direct_result with
        | Except.ok (text, page_count) =>
          if has_extractable_text text then
            Except.ok ⟨none, path, some file_hash, file_size, "direct", text,
              (page_count : Int), elapsed, now, true, none⟩
          else
            match extract_text_ocr args.text_only env.ocr_system_result with
            | Except.ok (ocr_text, ocr_page_count) =>
              Except.ok ⟨none, path, some file_hash, file_size, "ocr", ocr_text,
                (ocr_page_count : Int), elapsed, now, true, none⟩
            | Except.error _ =>
              Except.ok ⟨none, path, some file_hash, file_size, "direct_partial",
                text, (page_count : Int), elapsed, now, true, none⟩
        | Except.error e =>
          match extract_text_ocr args.text_only env.ocr_system_result with
          | Except.ok (ocr_text, ocr_page_count) =>
            Except.ok ⟨none, path, some file_hash, file_size, "ocr", ocr_text,
              (ocr_page_count : Int), elapsed, now, true, none⟩
          | Except.error ocr_e =>
            Except.ok ⟨none, path, some file_hash, file_size, "error", "", 0,
              elapsed, now, false,
              some ("Direct: " ++ e ++ ", OCR: " ++ ocr_e)⟩

/-! ## Result store (database.rs) -/

/-- Two rows conflict on the `UNIQUE(file_path, file_hash)` constraint:
equal paths and equal non-NULL hashes (SQLite uniqueness treats NULL as
distinct from everything, so a NULL hash never conflicts). -/
def rowConflict (a b : ExtractionResult) : Bool :=
  a.file_path == b.file_path &&
    match a.file_hash, b.file_hash with
    | some x, some y => x == y
    | _, _ => false

/-- One `INSERT OR REPLACE` of `r` at clock `now`: the conflicting row (if
any) is deleted and the new row is appended with no `id` and the default
`CURRENT_TIMESTAMP`; the statement does not supply `id` or `timestamp`. -/
def insertRow (st : List ExtractionResult) (r : ExtractionResult) (now : Nat) :
    List ExtractionResult :=
  st.filter (fun q => !(rowConflict q r)) ++
    [{ r with id := none, timestamp := now }]

/-- `Database::insert_result`: a single `INSERT OR REPLACE`. -/
def insert_result (st : List ExtractionResult) (r : ExtractionResult) (now : Nat) :
    List ExtractionResult :=
  insertRow st r now

/-- The loop body of `Database::batch_insert`, executing one prepared
`INSERT OR REPLACE` per result inside the open transaction; `fail i = true`
models the `i`-th `stmt.execute` returning an error (which `?` propagates,
dropping the transaction). The accumulated transaction state is returned on
success. -/
def batchInsertLoop (txState : List ExtractionResult) :
    List ExtractionResult → (Nat → Bool) → Nat → Nat →
    Except String (List ExtractionResult)
  | [], _, _, _ => Except.ok txState
  | r :: rs, fail, i, now =>
    if fail i then Except.error "insert failed"
    else batchInsertLoop (insertRow txState r now) rs fail (i + 1) now

/-- `Database::batch_insert` (database.rs lines 114-145): all inserts run
inside one `unchecked_transaction`; on any insert failure the error
propagates and the dropped transaction rolls back, leaving the visible
store unchanged; on success `tx.commit()` publishes the accumulated state.
Returns (call result, visible store afterwards). -/
def batch_insert (st : List ExtractionResult) (results : List ExtractionResult)
    (fail : Nat → Bool) (now : Nat) :
    Except String (List ExtractionResult) × List ExtractionResult :=
  match batchInsertLoop st results fail 0 now with
  | Except.ok tx => (Except.ok tx, tx)
  | Except.error e => (Except.error e, st)

/-- `Database::file_exists`: `COUNT(*) > 0` for equal path and equal
(non-NULL) hash — the SQL comparison `file_hash = ?2` never matches a NULL
stored hash. -/
def file_exists (st : List ExtractionResult) (path hash : String) : Bool :=
  st.any (fun q => q.file_path == path && q.file_hash == some hash)

/-- Aggregates returned by `Database::get_stats`. -/
structure DatabaseStats where
  total : Int
  successful : Int
  failed : Int
  avg_processing_time : Rat
deriving DecidableEq

/-- `Database::get_stats`: total and successful row counts, failed as their
difference, and `AVG(processing_time_seconds)` over successful rows — SQL
`AVG` is NULL on an empty set, which `.unwrap_or(0.0)` turns into 0. -/
def get_stats (st : List ExtractionResult) : DatabaseStats :=
  let total : Int := st.length
  let successful : Int := st.countP (fun r => r.success)
  let succRows := st.filter (fun r => r.success)
  ⟨total, successful, total - successful,
    if succRows.length = 0 then 0
    else (succRows.map (fun r => r.processing_time_seconds)).sum / (succRows.length : Rat)⟩

/-- One row of `Database::search_text`'s result set. -/
structure SearchResult where
  file_path : String
  extraction_method : String
  preview : String
  timestamp : Nat
deriving DecidableEq

/-- ASCII case folding: SQLite's default `LIKE` is case-insensitive for the
ASCII letters A-Z only. -/
def lowerAscii (c : Char) : Char :=
  if 'A' ≤ c && c ≤ 'Z' then Char.ofNat (c.toNat + 32) else c

/-- SQLite `LIKE` pattern matching (default `case_sensitive_like` off):
`%` matches any sequence, `_` any single character, and letters match up
to ASCII case. Structural recursion on fuel; every recursive call shrinks
`pattern.length + text.length`, so fuel `≥ pattern.length + text.length`
is never exhausted. -/
def likeMatchF : Nat → List Char → List Char → Bool
  | _, [], [] => true
  | _, [], _ :: _ => false
  | 0, _ :: _, _ => false
  | fuel + 1, '%' :: ps, [] => likeMatchF fuel ps []
  | fuel + 1, '%' :: ps, c :: ts =>
    likeMatchF fuel ps (c :: ts) || likeMatchF fuel ('%' :: ps) ts
  | _, '_' :: _, [] => false
  | fuel + 1, '_' :: ps, _ :: ts => likeMatchF fuel ps ts
  | _, _ :: _, [] => false
  | fuel + 1, q :: ps, c :: ts =>
    (lowerAscii q == lowerAscii c) && likeMatchF fuel ps ts

/-- `extracted_text LIKE '%' || query || '%'` under SQLite's default LIKE
semantics. -/
def likeContains (text query : String) : Bool :=
  likeMatchF (query.data.length + 2 + text.data.length)
    ('%' :: (query.data ++ ['%'])) text.data

/-- Case-sensitive substring containment, written from the specification's
words ("case-sensitive substring match") for comparison with the SQL the
code actually runs. -/
def caseSensPrefix : List Char → List Char → Bool
  | [], _ => true
  | _ :: _, [] => false
  | q :: qs, c :: cs => q == c && caseSensPrefix qs cs

/-- Occurrence of `q` as a prefix of some suffix of the first list. -/
def caseSensContainsAux : List Char → List Char → Bool
  | [], q => caseSensPrefix q []
  | c :: ts, q => caseSensPrefix q (c :: ts) || caseSensContainsAux ts q

/-- Spec-worded predicate: `query` occurs in `text` as a case-sensitive
substring. -/
def caseSensContains (text query : String) : Bool :=
  caseSensContainsAux text.data query.data

/-- The `ORDER BY timestamp DESC` order: `a` comes no later than `b` when
its timestamp is at least `b`'s. -/
def timeDesc (a b : ExtractionResult) : Prop := b.timestamp ≤ a.timestamp

instance : DecidableRel timeDesc := fun a b => Nat.decLe b.timestamp a.timestamp

instance : IsTotal ExtractionResult timeDesc :=
  ⟨fun a b => le_total b.timestamp a.timestamp⟩

instance : IsTrans ExtractionResult timeDesc :=
  ⟨fun _ _ _ h1 h2 => le_trans h2 h1⟩

/-- `ORDER BY timestamp DESC`: a sort of the result set by decreasing
timestamp (SQLite guarantees no particular order among ties). -/
def sortDesc (l : List ExtractionResult) : List ExtractionResult :=
  List.insertionSort timeDesc l

/-- The SELECT projection of `search_text`: path, method, the preview
`substr(extracted_text, 1, 200)` (SQLite `substr` counts characters on
text), and the timestamp. -/
def toSearchRow (r : ExtractionResult) : SearchResult :=
  ⟨r.file_path, r.extraction_method, ⟨r.extracted_text.data.take 200⟩, r.timestamp⟩

/-- `Database::search_text` (database.rs lines 192-223): rows with
`success = 1` whose text matches `LIKE '%query%'`, ordered by timestamp
descending, limited, projected to previews. -/
def search_text (st : List ExtractionResult) (query : String) (limit : Nat) :
    List SearchResult :=
  ((sortDesc (st.filter (fun r => r.success && likeContains r.extracted_text query))).take
    limit).map toSearchRow

/-- Store well-formedness: no two rows conflict on the unique key. Every
store reachable by inserts from the empty store satisfies it. -/
def storeInv (st : List ExtractionResult) : Prop :=
  st.Pairwise (fun a b => rowConflict a b = false)

/-! ## Work scheduler (extractor.rs, `process_files`) -/

/-- The result of awaiting one spawned task in the collection loop of
`process_files`: `ok` and `err` are the two arms of the inner
`Result<ExtractionResult>` from `process_single_file`; `panicked` is a
`JoinError` from `task.await` (the task panicked or was cancelled). -/
inductive TaskResult where
  | ok (r : ExtractionResult)
  | err (msg : String)
  | panicked (msg : String)
deriving DecidableEq

/-- The collection loop (extractor.rs lines 80-86): `task.await?` propagates
a `JoinError` immediately, aborting the whole run; an inner `Err` is logged
and skipped; an `Ok` outcome is pushed. -/
def collectResults : List TaskResult → Except String (List ExtractionResult)
  | [] => Except.ok []
  | TaskResult.ok r :: ts =>
    match collectResults ts with
    | Except.ok rs => Except.ok (r :: rs)
    | Except.error e => Except.error e
  | TaskResult.err _ :: ts => collectResults ts
  | TaskResult.panicked m :: _ => Except.error m

/-- The outcomes of the tasks that completed with `Ok`, in task order. -/
def okOutcomes (ts : List TaskResult) : List ExtractionResult :=
  ts.filterMap (fun t => match t with | TaskResult.ok r => some r | _ => none)

/-- Whether a task completed without a `JoinError`. -/
def notPanicked : TaskResult → Bool
  | TaskResult.panicked _ => false
  | _ => true

/-- `PdfExtractor::process_files` after the tasks have completed: collect
the task results (aborting on a `JoinError`), then `batch_insert` the
non-empty result list. Returns (call result, visible store afterwards). -/
def process_files (st : List ExtractionResult) (tasks : List TaskResult)
    (fail : Nat → Bool) (now : Nat) :
    Except String (List ExtractionResult) × List ExtractionResult :=
  match collectResults tasks with
  | Except.error e => (Except.error e, st)
  | Except.ok results =>
    if results.isEmpty then (Except.ok results, st)
    else
      match batch_insert st results fail now with
      | (Except.ok _, st2) => (Except.ok results, st2)
      | (Except.error e, st2) => (Except.error e, st2)

/-- The lifecycle of one spawned task with respect to the semaphore of
`process_files`: waiting for a permit, running its resolution while
holding exactly one permit, or done (permit released at scope exit). -/
inductive TaskPhase where
  | waiting
  | running
  | done
deriving DecidableEq

/-- Scheduler state: free permits of `Semaphore::new(args.threads)` plus
the phase of every spawned task. -/
structure SchedState where
  permits : Nat
  phases : List TaskPhase
deriving DecidableEq

/-- The two permit transitions of a task in `process_files`:
`semaphore.acquire()` completes only when a permit is free and takes it;
dropping `_permit` at the end of the task body returns it — once, on every
path through the task. -/
inductive SchedStep : SchedState → SchedState → Prop where
  | acquire (s : SchedState) (i : Nat) (hi : i < s.phases.length)
      (hw : s.phases.get ⟨i, hi⟩ = TaskPhase.waiting) (hp : 0 < s.permits) :
      SchedStep s ⟨s.permits - 1, s.phases.set i TaskPhase.running⟩
  | finish (s : SchedState) (i : Nat) (hi : i < s.phases.length)
      (hr : s.phases.get ⟨i, hi⟩ = TaskPhase.running) :
      SchedStep s ⟨s.permits + 1, s.phases.set i TaskPhase.done⟩

/-- States reachable from the start of a run over `k` files with `n`
configured permits. -/
inductive SchedReachable (n k : Nat) : SchedState → Prop where
  | init : SchedReachable n k ⟨n, List.replicate k TaskPhase.waiting⟩
  | step {s s2 : SchedState} : SchedReachable n k s → SchedStep s s2 →
      SchedReachable n k s2

/-- Number of files whose strategy-chain resolution is in flight. -/
def inFlight (s : SchedState) : Nat :=
  s.phases.countP (fun p => p == TaskPhase.running)

/-! ## Fingerprinter (extractor.rs, `calculate_fast_hash`) -/

/-- A byte string: its length and its value as a big-endian integer
(`val < 256 ^ len`). Rust slice operations become arithmetic: taking a
prefix is division, a suffix is remainder, concatenation multiplies and
adds. -/
structure Bytes where
  len : Nat
  val : Nat
deriving DecidableEq

/-- Concatenation of byte strings. -/
def bappend (a b : Bytes) : Bytes := ⟨a.len + b.len, a.val * 256 ^ b.len + b.val⟩

/-- The first `k` bytes (all of them when `k ≥ len`), as in `content[0..k]`. -/
def btake (k : Nat) (a : Bytes) : Bytes :=
  ⟨min k a.len, a.val / 256 ^ (a.len - min k a.len)⟩

/-- The bytes from offset `k` on, as in `content[k..]`. -/
def bdrop (k : Nat) (a : Bytes) : Bytes := ⟨a.len - k, a.val % 256 ^ (a.len - k)⟩

/-- `u64::to_be_bytes`. -/
def u64beB (n : Nat) : Bytes := ⟨8, n % 2 ^ 64⟩

/-- `k` zero bytes. -/
def zerosB (k : Nat) : Bytes := ⟨k, 0⟩

/-- Truncation to 32 bits. -/
def u32 (n : Nat) : Nat := n % 4294967296

/-- 32-bit rotate right. -/
def rotr (k x : Nat) : Nat := u32 ((x >>> k) ||| (x <<< (32 - k)))

/-- SHA-256 message padding: 0x80, zeros to 56 mod 64, then the bit length
as a 64-bit big-endian integer. -/
def sha256pad (msg : Bytes) : Bytes :=
  bappend msg (bappend ⟨1, 128⟩
    (bappend (zerosB ((64 - ((msg.len + 9) % 64)) % 64)) (u64beB (8 * msg.len))))

/-- Word `j` (0-based, big-endian) of a 64-byte chunk. -/
def wordAt (chunk : Bytes) (j : Nat) : Nat :=
  (chunk.val >>> (8 * (60 - 4 * j))) % 2 ^ 32

/-- The sixteen 32-bit words of a 64-byte chunk. -/
def chunkWords (chunk : Bytes) : List Nat := (List.range 16).map (wordAt chunk)

/-- The SHA-256 round constants (first 32 bits of the fractional parts of
the cube roots of the first 64 primes). -/
def shaK : List Nat :=
  [1116352408, 1899447441, 3049323471, 3921009573, 961987163,
   1508970993, 2453635748, 2870763221, 3624381080, 310598401,
   607225278, 1426881987, 1925078388, 2162078206, 2614888103,
   3248222580, 3835390401, 4022224774, 264347078, 604807628,
   770255983, 1249150122, 1555081692, 1996064986, 2554220882,
   2821834349, 2952996808, 3210313671, 3336571891, 3584528711,
   113926993, 338241895, 666307205, 773529912, 1294757372,
   1396182291, 1695183700, 1986661051, 2177026350, 2456956037,
   2730485921, 2820302411, 3259730800, 3345764771, 3516065817,
   3600352804, 4094571909, 275423344, 430227734, 506948616,
   659060556, 883997877, 958139571, 1322822218, 1537002063,
   1747873779, 1955562222, 2024104815, 2227730452, 2361852424,
   2428436474, 2756734187, 3204031479, 3329325298]

/-- The SHA-256 initial hash value. -/
def shaH0 : List Nat :=
  [1779033703, 3144134277, 1013904242, 2773480762,
   1359893119, 2600822924, 528734635, 1541459225]

/-- Message-schedule extension: appends one word per remaining round. -/
def extendSchedule : Nat → List Nat → List Nat
  | 0, w => w
  | r + 1, w =>
    let i := w.length
    let w15 := w.getD (i - 15) 0
    let w2 := w.getD (i - 2) 0
    let s0 := u32 ((rotr 7 w15) ^^^ (rotr 18 w15) ^^^ (w15 >>> 3))
    let s1 := u32 ((rotr 17 w2) ^^^ (rotr 19 w2) ^^^ (w2 >>> 10))
    extendSchedule r (w ++ [u32 (w.getD (i - 16) 0 + s0 + w.getD (i - 7) 0 + s1)])

/-- The eight working registers of the SHA-256 compression function. -/
structure ShaRegs where
  a : Nat
  b : Nat
  c : Nat
  d : Nat
  e : Nat
  f : Nat
  g : Nat
  h : Nat

/-- One SHA-256 compression round. -/
def shaStep (s : ShaRegs) (kw : Nat × Nat) : ShaRegs :=
  let S1 := (rotr 6 s.e) ^^^ (rotr 11 s.e) ^^^ (rotr 25 s.e)
  let ch := (s.e &&& s.f) ^^^ ((4294967295 ^^^ s.e) &&& s.g)
  let t1 := u32 (s.h + S1 + ch + kw.1 + kw.2)
  let S0 := (rotr 2 s.a) ^^^ (rotr 13 s.a) ^^^ (rotr 22 s.a)
  let maj := (s.a &&& s.b) ^^^ (s.a &&& s.c) ^^^ (s.b &&& s.c)
  let t2 := u32 (S0 + maj)
  ⟨u32 (t1 + t2), s.a, s.b, s.c, u32 (s.d + t1), s.e, s.f, s.g⟩

/-- Compression of one 64-byte chunk into the running hash value. -/
def processChunk (hs : List Nat) (chunk : Bytes) : List Nat :=
  let ws := extendSchedule 48 (chunkWords chunk)
  let init : ShaRegs :=
    ⟨hs.getD 0 0, hs.getD 1 0, hs.getD 2 0, hs.getD 3 0,
     hs.getD 4 0, hs.getD 5 0, hs.getD 6 0, hs.getD 7 0⟩
  let fin := (shaK.zip ws).foldl shaStep init
  [u32 (hs.getD 0 0 + fin.a), u32 (hs.getD 1 0 + fin.b), u32 (hs.getD 2 0 + fin.c),
   u32 (hs.getD 3 0 + fin.d), u32 (hs.getD 4 0 + fin.e), u32 (hs.getD 5 0 + fin.f),
   u32 (hs.getD 6 0 + fin.g), u32 (hs.getD 7 0 + fin.h)]

/-- The `i`-th 64-byte chunk of a padded message. -/
def blockAt (p : Bytes) (i : Nat) : Bytes := btake 64 (bdrop (64 * i) p)

/-- Folding the compression function over chunks `i, i+1, ...` of `p`,
`cnt` chunks in all. -/
def shaFold : Bytes → List Nat → Nat → Nat → List Nat
  | _, hs, _, 0 => hs
  | p, hs, i, cnt + 1 => shaFold p (processChunk hs (blockAt p i)) (i + 1) cnt

/-- SHA-256 of a byte string, as eight 32-bit words. -/
def sha256B (msg : Bytes) : List Nat :=
  shaFold (sha256pad msg) shaH0 0 ((sha256pad msg).len / 64)

/-- A lowercase hexadecimal digit. -/
def hexDigit (n : Nat) : Char :=
  if n < 10 then Char.ofNat (48 + n) else Char.ofNat (87 + n)

/-- Eight lowercase hex digits of a 32-bit word. -/
def wordHex (w : Nat) : List Char :=
  [hexDigit (w >>> 28 % 16), hexDigit (w >>> 24 % 16), hexDigit (w >>> 20 % 16),
   hexDigit (w >>> 16 % 16), hexDigit (w >>> 12 % 16), hexDigit (w >>> 8 % 16),
   hexDigit (w >>> 4 % 16), hexDigit (w % 16)]

/-- The 64-character lowercase hex digest, as `format!("{:x}", ...)` prints
a SHA-256 digest. -/
def sha256hexB (msg : Bytes) : String :=
  ⟨(sha256B msg).foldr (fun w acc => wordHex w ++ acc) []⟩

/-- The byte stream `calculate_fast_hash` (extractor.rs lines 217-246)
feeds to the hasher: the file length as `u64` big-endian bytes, the
modification time in seconds when available, then — for a non-empty file —
`content[0 .. min 1024 len]` and, when `len > 1024`,
`content[max 1024 (len - 1024) ..]`. -/
def fastHashInput (mtime : Option Nat) (content : Bytes) : Bytes :=
  bappend (u64beB content.len)
    (bappend (match mtime with | some t => u64beB t | none => zerosB 0)
      (if 0 < content.len then
        bappend (btake (min 1024 content.len) content)
          (if 1024 < content.len then bdrop (max 1024 (content.len - 1024)) content
           else zerosB 0)
      else zerosB 0))

/-- `PdfExtractor::calculate_fast_hash`: the hex SHA-256 digest of the
stream above. -/
def calculate_fast_hash (mtime : Option Nat) (content : Bytes) : String :=
  sha256hexB (fastHashInput mtime content)

/-- The hash input as the claim words it: length and mtime followed by the
first 1024 bytes and, when the file exceeds 1024 bytes, the **last 1024
bytes** (overlapping the first chunk when `len < 2048`). -/
def claimedFastHashInput (mtime : Option Nat) (content : Bytes) : Bytes :=
  bappend (u64beB content.len)
    (bappend (match mtime with | some t => u64beB t | none => zerosB 0)
      (bappend (btake 1024 content)
        (if 1024 < content.len then bdrop (content.len - 1024) content else zerosB 0)))

/-- The fast fingerprint as the claim describes it. -/
def claimedFastHash (mtime : Option Nat) (content : Bytes) : String :=
  sha256hexB (claimedFastHashInput mtime content)

/-- The hash input as amended: first `min 1024 len` bytes, then — when the
file exceeds 1024 bytes — the last 1024 bytes if `len ≥ 2048`, else the
remainder after the first chunk (chunks never overlap). -/
def amendedFastHashInput (mtime : Option Nat) (content : Bytes) : Bytes :=
  bappend (u64beB content.len)
    (bappend (match mtime with | some t => u64beB t | none => zerosB 0)
      (bappend (btake 1024 content)
        (if 1024 < content.len then
          (if 2048 ≤ content.len then bdrop (content.len - 1024) content
           else bdrop 1024 content)
         else zerosB 0)))

/-- The concrete 1030-byte file (all zero bytes) of the C2 counterexample:
its length lies strictly between 1024 and 2048. -/
def c2content : Bytes := ⟨1030, 0⟩

/-- The padded code-side hash input for `c2content` (17 chunks). -/
def c2padA : Bytes := sha256pad (fastHashInput none c2content)

/-- The padded claim-side hash input for `c2content` (33 chunks). -/
def c2padB : Bytes := sha256pad (claimedFastHashInput none c2content)

/-! ## Concrete instances used by counterexamples and witnesses -/

/-- A text-only run configuration (`--text-only`). -/
def textOnlyArgs : Args := ⟨4, false, true, false, false⟩

/-- A default-flag run configuration. -/
def defaultArgs : Args := ⟨2, false, false, false, false⟩

/-- Oracles for a file whose direct extraction succeeds with empty text
(an empty or textless PDF). -/
def c1env : FileEnv :=
  ⟨Except.ok 10, Except.ok "h1", Except.ok ("", 0), Except.error "no ocr"⟩

/-- The outcome `process_single_file textOnlyArgs c1env "w.pdf" 0 0`
produces: a successful `direct_partial` outcome with empty text. -/
def c1out : ExtractionResult :=
  ⟨none, "w.pdf", some "h1", 10, "direct_partial", "", 0, 0, 0, true, none⟩

/-- Oracles for a file whose metadata read fails. -/
def c5env : FileEnv :=
  ⟨Except.error "metadata unreadable", Except.ok "h5", Except.ok ("x", 1),
    Except.error "no ocr"⟩

/-- Twenty-six copies of `é`: 26 characters, but 52 UTF-8 bytes. -/
def c9text : String := "éééééééééééééééééééééééééé"

/-- Oracles for a file whose direct extraction yields `c9text`. -/
def c9env : FileEnv :=
  ⟨Except.ok 99, Except.ok "h9", Except.ok (c9text, 3), Except.error "no ocr"⟩

/-- A stored successful row whose text contains "Hello" (capital H). -/
def rowHello : ExtractionResult :=
  ⟨none, "a.pdf", some "hash-a", 10, "direct", "Hello World, stored text", 1, 1, 5, true, none⟩

/-- A second stored successful row with a different key and text. -/
def rowOther : ExtractionResult :=
  ⟨none, "b.pdf", some "hash-b", 11, "ocr", "nothing of note", 1, 1, 9, true, none⟩

/-- A stored failed row. -/
def rowFailed : ExtractionResult :=
  ⟨none, "c.pdf", some "hash-c", 12, "error", "", 0, 2, 3, false, some "Direct: x, OCR: y"⟩

/-- A replacement for `rowHello` carrying the same `(path, hash)` key. -/
def rowHello2 : ExtractionResult :=
  ⟨none, "a.pdf", some "hash-a", 10, "direct", "Hello again", 1, 2, 8, true, none⟩

/-- A three-row store: one failed row and two successful rows. -/
def store3 : List ExtractionResult := [rowFailed, rowHello, rowOther]

/-! ## C1, C5, C9: the strategy chain -/

/-- C1 counterexample: `process_single_file` in text-only mode on a file
whose direct extraction returns empty text produces a successful
`direct_partial` outcome whose text is empty — so the claimed equivalence
`method = "error" ⇔ text = ""` is false on this outcome. -/
theorem c1_counterexample :
    process_single_file textOnlyArgs c1env "w.pdf" 0 0 = Except.ok c1out ∧
    ¬((c1out.extraction_method = "error") ↔ (c1out.extracted_text = "")) := by
  constructor
  · rfl
  · decide

/-- C1 (amended): every outcome returned by `process_single_file` satisfies
`success = true ↔ method ≠ "error"`, and `method = "error"` implies
`text = ""`; the converse of the latter fails (see the counterexample). -/
theorem c1_success_iff_method_not_error (args : Args) (env : FileEnv)
    (path : String) (elapsed : Rat) (now : Nat) (out : ExtractionResult)
    (h : process_single_file args env path elapsed now = Except.ok out) :
    (out.success = true ↔ out.extraction_method ≠ "error") ∧
    (out.extraction_method = "error" → out.extracted_text = "") := by
  unfold process_single_file at h
  repeat' split at h
  all_goals first
    | exact Except.noConfusion h
    | (simp only [Except.ok.injEq] at h; subst h; simp)

/-- C1 witness: the amended invariant, instantiated on the concrete
`direct_partial` outcome above. -/
theorem c1_success_iff_method_not_error_witness :
    ((c1out.success = true ↔ c1out.extraction_method ≠ "error") ∧
      (c1out.extraction_method = "error" → c1out.extracted_text = "")) :=
  c1_success_iff_method_not_error textOnlyArgs c1env "w.pdf" 0 0 c1out rfl

/-- C5 counterexample: when the metadata read fails, `process_single_file`
returns an error instead of an outcome — the claimed "always returns Ok,
including on fingerprint/metadata I/O failure" is false. -/
theorem c5_counterexample :
    process_single_file textOnlyArgs c5env "x.pdf" 0 0 =
      Except.error "metadata unreadable" := rfl

/-- C5 (amended): whenever the metadata read and the fingerprint succeed,
`process_single_file` returns an outcome for every configuration and every
behaviour of the extraction oracles — all extraction failures are funneled
into an outcome; but metadata or fingerprint I/O failure is an error
return that produces no outcome. -/
theorem c5_always_outcome_amended (args : Args) (sz : Int) (hsh : String)
    (dr osys : Except String (String × Nat)) (path : String)
    (elapsed : Rat) (now : Nat) :
    ∃ out, process_single_file args ⟨Except.ok sz, Except.ok hsh, dr, osys⟩
      path elapsed now = Except.ok out := by
  unfold process_single_file extract_text_ocr
  dsimp only
  repeat' split
  all_goals exact ⟨_, rfl⟩

/-- C9 counterexample: in text-only mode, a direct text of 26 two-byte
characters has 26 ≤ 50 characters, yet the outcome is `method = "direct"`
(not `direct_partial`): the source threshold `text.trim().len() > 50`
counts UTF-8 bytes (52 here), not characters. -/
theorem c9_counterexample :
    process_single_file textOnlyArgs c9env "c9.pdf" 0 0 =
      Except.ok ⟨none, "c9.pdf", some "h9", 99, "direct", c9text, 3, 0, 0,
        true, none⟩ ∧
    c9text.data.length ≤ 50 ∧ trimChars c9text.data = c9text.data := by
  refine ⟨rfl, by decide, by decide⟩

/-- C9 (amended): in text-only mode (and not OCR-only), for every file
whose direct extraction succeeds with trimmed text of UTF-8 byte length
≤ 50, the OCR fallback fails by construction and the outcome is a
successful `direct_partial` carrying the thin direct text. -/
theorem c9_thin_text_direct_partial (th : Nat) (fh fo : Bool) (sz : Int)
    (hsh : String) (t : String) (pc : Nat) (osys : Except String (String × Nat))
    (path : String) (elapsed : Rat) (now : Nat)
    (hthin : utf8Len (trimChars t.data) ≤ 50) :
    process_single_file ⟨th, fh, true, false, fo⟩
      ⟨Except.ok sz, Except.ok hsh, Except.ok (t, pc), osys⟩ path elapsed now =
    Except.ok ⟨none, path, some hsh, sz, "direct_partial", t, (pc : Int),
      elapsed, now, true, none⟩ := by
  have hfalse : has_extractable_text t = false := by
    simp only [has_extractable_text, decide_eq_false_iff_not, not_lt]
    exact hthin
  unfold process_single_file extract_text_ocr
  dsimp only
  rw [hfalse]
  simp

/-- C9 witness: a concrete thin direct text falls back to `direct_partial`
in text-only mode. -/
theorem c9_thin_text_direct_partial_witness :
    process_single_file ⟨4, false, true, false, false⟩
      ⟨Except.ok 7, Except.ok "wh", Except.ok ("short text", 2),
        Except.error "sys"⟩ "w9.pdf" 0 0 =
    Except.ok ⟨none, "w9.pdf", some "wh", 7, "direct_partial", "short text",
      2, 0, 0, true, none⟩ :=
  c9_thin_text_direct_partial 4 false false 7 "wh" "short text" 2
    (Except.error "sys") "w9.pdf" 0 0 (by decide)

/-! ## C10: aggregate statistics -/

/-- C10: when the store holds no successful rows (in particular when it is
empty), `get_stats` reports an average processing time of 0 rather than a
failing undefined average, while `total` still counts all rows and
`failed = total - successful` (here `failed = total`). -/
theorem c10_stats_no_successful (st : List ExtractionResult)
    (h : st.countP (fun r => r.success) = 0) :
    (get_stats st).avg_processing_time = 0 ∧
    (get_stats st).total = (st.length : Int) ∧
    (get_stats st).successful = 0 ∧
    (get_stats st).failed = (get_stats st).total - (get_stats st).successful ∧
    (get_stats st).failed = (get_stats st).total := by
  have hf : (st.filter (fun r => r.success)).length = 0 := by
    rw [← List.countP_eq_length_filter]; exact h
  unfold get_stats
  simp [hf, h]

/-- C10 witness: a store holding one failed row. -/
theorem c10_stats_no_successful_witness :
    (get_stats [rowFailed]).avg_processing_time = 0 ∧
    (get_stats [rowFailed]).total = (([rowFailed] : List ExtractionResult).length : Int) ∧
    (get_stats [rowFailed]).successful = 0 ∧
    (get_stats [rowFailed]).failed =
      (get_stats [rowFailed]).total - (get_stats [rowFailed]).successful ∧
    (get_stats [rowFailed]).failed = (get_stats [rowFailed]).total :=
  c10_stats_no_successful [rowFailed] (by decide)

/-! ## C3, C4: the result store -/

/-- A row conflicts with another exactly when the paths agree and both
hashes carry the same non-NULL value. -/
theorem rowConflict_iff (a b : ExtractionResult) :
    rowConflict a b = true ↔
      a.file_path = b.file_path ∧
        ∃ v, a.file_hash = some v ∧ b.file_hash = some v := by
  unfold rowConflict
  rcases ha : a.file_hash with _ | x <;> rcases hb : b.file_hash with _ | y <;>
    simp [ha, hb]
  exact fun _ => eq_comm

/-- `rowConflict` ignores `id` and `timestamp`. -/
theorem rowConflict_insertable (q r : ExtractionResult) (now : Nat) :
    rowConflict q { r with id := none, timestamp := now } = rowConflict q r := rfl

/-- Conflicting with a common row is transitive into a direct conflict. -/
theorem rowConflict_trans (q1 q2 r : ExtractionResult)
    (h1 : rowConflict q1 r = true) (h2 : rowConflict q2 r = true) :
    rowConflict q1 q2 = true := by
  rw [rowConflict_iff] at h1 h2 ⊢
  rcases h1 with ⟨hp1, v, hv1, hvr⟩
  rcases h2 with ⟨hp2, w, hw1, hwr⟩
  have hvw : v = w := by rw [hvr] at hwr; exact Option.some.inj hwr
  exact ⟨hp1.trans hp2.symm, v, hv1, by rw [hw1, hvw]⟩

/-- In a well-formed store, replacing an already-present key removes
exactly one row, so the row count is unchanged by the insert. -/
theorem insertRow_length_of_present (st : List ExtractionResult)
    (r : ExtractionResult) (now : Nat) (hinv : storeInv st)
    (hp : ∃ q ∈ st, rowConflict q r = true) :
    (insertRow st r now).length = st.length := by
  unfold insertRow
  unfold storeInv at hinv
  rw [List.length_append, List.length_singleton]
  induction st with
  | nil => rcases hp with ⟨q, hq, _⟩; cases hq
  | cons a as ih =>
    rw [List.pairwise_cons] at hinv
    by_cases hc : rowConflict a r = true
    · have hkeep : as.filter (fun q => !(rowConflict q r)) = as := by
        apply List.filter_eq_self.mpr
        intro q hq
        have hfa : rowConflict a q = false := hinv.1 q hq
        cases hcq : rowConflict q r with
        | false => simp
        | true =>
          have : rowConflict a q = true := rowConflict_trans a q r hc hcq
          rw [hfa] at this
          exact Bool.noConfusion this
      simp [List.filter_cons, hc, hkeep]
    · rcases hp with ⟨q, hq, hqc⟩
      rcases List.mem_cons.mp hq with rfl | hq2
      · exact absurd hqc hc
      · have hrest := ih hinv.2 ⟨q, hq2, hqc⟩
        have hcf : rowConflict a r = false := by
          cases hv : rowConflict a r with
          | false => rfl
          | true => exact absurd hv hc
        simp [List.filter_cons, hcf]
        omega

/-- Inserting preserves store well-formedness. -/
theorem storeInv_insertRow (st : List ExtractionResult) (r : ExtractionResult)
    (now : Nat) (hinv : storeInv st) : storeInv (insertRow st r now) := by
  unfold storeInv insertRow
  rw [List.pairwise_append]
  refine ⟨hinv.sublist (List.filter_sublist st), List.pairwise_singleton _ _, ?_⟩
  intro q hq b hb
  rcases List.mem_singleton.mp hb with rfl
  rw [rowConflict_insertable]
  have := (List.mem_filter.mp hq).2
  simpa using this

/-- An already-present key stays present across any later insert (the
replacing row carries the same key when it evicts the witness). -/
theorem present_after_insertRow (st : List ExtractionResult)
    (r x : ExtractionResult) (now : Nat)
    (hp : ∃ q ∈ st, rowConflict q r = true) :
    ∃ q ∈ insertRow st x now, rowConflict q r = true := by
  rcases hp with ⟨q, hq, hqc⟩
  by_cases hcx : rowConflict q x = true
  · refine ⟨{ x with id := none, timestamp := now }, ?_, ?_⟩
    · unfold insertRow; exact List.mem_append_right _ (List.mem_singleton.mpr rfl)
    · have hxq : rowConflict x q = true := by
        rw [rowConflict_iff] at hcx ⊢
        rcases hcx with ⟨hp1, v, h1, h2⟩
        exact ⟨hp1.symm, v, h2, h1⟩
      have hxr : rowConflict x r = true := by
        rw [rowConflict_iff] at hxq hqc ⊢
        rcases hxq with ⟨hp1, v, h1, h2⟩
        rcases hqc with ⟨hp2, w, h3, h4⟩
        have : v = w := by rw [h2] at h3; exact Option.some.inj h3
        exact ⟨hp1.trans hp2, w, this ▸ h1, h4⟩
      calc rowConflict { x with id := none, timestamp := now } r
          = rowConflict x r := rfl
        _ = true := hxr
  · refine ⟨q, ?_, hqc⟩
    unfold insertRow
    apply List.mem_append_left
    apply List.mem_filter.mpr
    exact ⟨hq, by simpa using hcx⟩

/-- A row with a given `(path, hash)` pair stays in the store across any
later insert: either it survives the filter, or the evicting row carries
the same pair. -/
theorem keyeq_after_insertRow (st : List ExtractionResult)
    (r x : ExtractionResult) (now : Nat)
    (hp : ∃ q ∈ st, q.file_path = r.file_path ∧ q.file_hash = r.file_hash) :
    ∃ q ∈ insertRow st x now,
      q.file_path = r.file_path ∧ q.file_hash = r.file_hash := by
  rcases hp with ⟨q, hq, hqp, hqh⟩
  by_cases hcx : rowConflict q x = true
  · refine ⟨{ x with id := none, timestamp := now }, ?_, ?_, ?_⟩
    · unfold insertRow; exact List.mem_append_right _ (List.mem_singleton.mpr rfl)
    · rw [rowConflict_iff] at hcx
      exact (hcx.1.symm.trans hqp :)
    · rw [rowConflict_iff] at hcx
      rcases hcx with ⟨_, v, h1, h2⟩
      calc ({ x with id := none, timestamp := now } : ExtractionResult).file_hash
          = x.file_hash := rfl
        _ = some v := h2
        _ = q.file_hash := h1.symm
        _ = r.file_hash := hqh
  · refine ⟨q, ?_, hqp, hqh⟩
    unfold insertRow
    apply List.mem_append_left
    apply List.mem_filter.mpr
    exact ⟨hq, by simpa using hcx⟩

/-- The newly inserted row itself is visible by its `(path, hash)` pair. -/
theorem self_keyeq_insertRow (st : List ExtractionResult)
    (r : ExtractionResult) (now : Nat) :
    ∃ q ∈ insertRow st r now,
      q.file_path = r.file_path ∧ q.file_hash = r.file_hash := by
  refine ⟨{ r with id := none, timestamp := now }, ?_, rfl, rfl⟩
  unfold insertRow
  exact List.mem_append_right _ (List.mem_singleton.mpr rfl)

/-- A batch loop over results whose keys are all present in a well-formed
transaction state preserves the row count. -/
theorem batchInsertLoop_length (rs : List ExtractionResult) :
    ∀ (tx : List ExtractionResult) (fail : Nat → Bool) (i now : Nat)
      (out : List ExtractionResult), storeInv tx →
      (∀ x ∈ rs, ∃ q ∈ tx, rowConflict q x = true) →
      batchInsertLoop tx rs fail i now = Except.ok out →
      out.length = tx.length := by
  induction rs with
  | nil =>
    intro tx fail i now out _ _ h
    unfold batchInsertLoop at h
    exact (Except.ok.inj h).symm ▸ rfl
  | cons r rs ih =>
    intro tx fail i now out hinv hpres h
    unfold batchInsertLoop at h
    split at h
    · exact Except.noConfusion h
    · have h1 : (insertRow tx r now).length = tx.length :=
        insertRow_length_of_present tx r now hinv (hpres r (List.mem_cons_self r rs))
      have hinv2 := storeInv_insertRow tx r now hinv
      have hpres2 : ∀ x ∈ rs, ∃ q ∈ insertRow tx r now, rowConflict q x = true :=
        fun x hx => present_after_insertRow tx x r now (hpres x (List.mem_cons_of_mem r hx))
      exact (ih _ fail (i + 1) now out hinv2 hpres2 h).trans h1

/-- A `(path, hash)` pair present in the transaction state stays present
through the rest of the batch loop. -/
theorem batchInsertLoop_keyeq (rs : List ExtractionResult) :
    ∀ (tx : List ExtractionResult) (fail : Nat → Bool) (i now : Nat)
      (out : List ExtractionResult) (r : ExtractionResult),
      batchInsertLoop tx rs fail i now = Except.ok out →
      (∃ q ∈ tx, q.file_path = r.file_path ∧ q.file_hash = r.file_hash) →
      ∃ q ∈ out, q.file_path = r.file_path ∧ q.file_hash = r.file_hash := by
  induction rs with
  | nil =>
    intro tx fail i now out r h hp
    unfold batchInsertLoop at h
    exact Except.ok.inj h ▸ hp
  | cons x rs ih =>
    intro tx fail i now out r h hp
    unfold batchInsertLoop at h
    split at h
    · exact Except.noConfusion h
    · exact ih _ fail (i + 1) now out r h (keyeq_after_insertRow tx r x now hp)

/-- Every row of the batch is visible by its `(path, hash)` pair in the
state the loop returns. -/
theorem batchInsertLoop_visible (rs : List ExtractionResult) :
    ∀ (tx : List ExtractionResult) (fail : Nat → Bool) (i now : Nat)
      (out : List ExtractionResult),
      batchInsertLoop tx rs fail i now = Except.ok out →
      ∀ r ∈ rs, ∃ q ∈ out, q.file_path = r.file_path ∧ q.file_hash = r.file_hash := by
  induction rs with
  | nil => intro tx fail i now out _ r hr; cases hr
  | cons x rs ih =>
    intro tx fail i now out h r hr
    unfold batchInsertLoop at h
    split at h
    · exact Except.noConfusion h
    · rcases List.mem_cons.mp hr with rfl | hr2
      · exact batchInsertLoop_keyeq rs _ fail (i + 1) now out r h
          (self_keyeq_insertRow tx r now)
      · exact ih _ fail (i + 1) now out h r hr2

/-- C3: `batch_insert` is atomic. If any individual insert of the batch
fails, the visible store afterwards equals the store before the call (the
dropped transaction rolls everything back, no partial subset is visible);
if the call succeeds, the commit publishes the transaction state and every
outcome of the batch is visible under its `(path, hash)` key. -/
theorem c3_batch_insert_atomic (st rs : List ExtractionResult)
    (fail : Nat → Bool) (now : Nat) :
    (∀ e, (batch_insert st rs fail now).1 = Except.error e →
      (batch_insert st rs fail now).2 = st) ∧
    (∀ s2, (batch_insert st rs fail now).1 = Except.ok s2 →
      (batch_insert st rs fail now).2 = s2 ∧
      ∀ r ∈ rs, ∃ q ∈ s2, q.file_path = r.file_path ∧ q.file_hash = r.file_hash) := by
  constructor
  · intro e he
    unfold batch_insert at he ⊢
    cases hloop : batchInsertLoop st rs fail 0 now with
    | ok tx => rw [hloop] at he; exact Except.noConfusion he
    | error e2 => rfl
  · intro s2 hs2
    unfold batch_insert at hs2 ⊢
    cases hloop : batchInsertLoop st rs fail 0 now with
    | ok tx =>
      rw [hloop] at hs2
      have htx : tx = s2 := Except.ok.inj hs2
      subst htx
      exact ⟨rfl, batchInsertLoop_visible rs st fail 0 now tx hloop⟩
    | error e2 => rw [hloop] at hs2; exact Except.noConfusion hs2

/-- C3 witness: a failing batch leaves the one-row store untouched; a
succeeding batch commits and its row is visible. -/
theorem c3_batch_insert_atomic_witness :
    (batch_insert [rowOther] [rowHello] (fun _ => true) 5).2 = [rowOther] ∧
    ((batch_insert [rowOther] [rowHello] (fun _ => false) 77).2 =
        [rowOther, ⟨none, "a.pdf", some "hash-a", 10, "direct",
          "Hello World, stored text", 1, 1, 77, true, none⟩] ∧
      ∀ r ∈ [rowHello],
        ∃ q ∈ [rowOther, (⟨none, "a.pdf", some "hash-a", 10, "direct",
            "Hello World, stored text", 1, 1, 77, true, none⟩ : ExtractionResult)],
          q.file_path = r.file_path ∧ q.file_hash = r.file_hash) :=
  ⟨(c3_batch_insert_atomic [rowOther] [rowHello] (fun _ => true) 5).1
      "insert failed" rfl,
   (c3_batch_insert_atomic [rowOther] [rowHello] (fun _ => false) 77).2
      _ rfl⟩

/-- C4: insertion is idempotent on the dedup key. In a well-formed store,
re-inserting an outcome whose `(file_path, file_hash)` pair already has a
row — through `insert_result` or through a successful `batch_insert` all
of whose outcomes have previously-seen keys — replaces rather than
appends, so the total row count reported by `get_stats` is unchanged. -/
theorem c4_upsert_idempotent (st : List ExtractionResult)
    (r : ExtractionResult) (now : Nat) (rs : List ExtractionResult)
    (fail : Nat → Bool) (now2 : Nat) (s2 : List ExtractionResult)
    (hinv : storeInv st)
    (hr : ∃ q ∈ st, rowConflict q r = true)
    (hrs : ∀ x ∈ rs, ∃ q ∈ st, rowConflict q x = true)
    (hok : (batch_insert st rs fail now2).1 = Except.ok s2) :
    (get_stats (insert_result st r now)).total = (get_stats st).total ∧
    (get_stats s2).total = (get_stats st).total := by
  constructor
  · unfold get_stats insert_result
    simp only
    exact congrArg Int.ofNat (insertRow_length_of_present st r now hinv hr)
  · unfold batch_insert at hok
    cases hloop : batchInsertLoop st rs fail 0 now2 with
    | ok tx =>
      rw [hloop] at hok
      have htx : tx = s2 := Except.ok.inj hok
      subst htx
      unfold get_stats
      simp only
      exact congrArg Int.ofNat (batchInsertLoop_length rs st fail 0 now2 tx hinv hrs hloop)
    | error e2 => rw [hloop] at hok; exact Except.noConfusion hok

/-- C4 witness: re-inserting a row with the already-seen key of `rowHello`
leaves the total at 1, both through `insert_result` and through a committed
batch. -/
theorem c4_upsert_idempotent_witness :
    (get_stats (insert_result [rowHello] rowHello2 9)).total =
      (get_stats [rowHello]).total ∧
    (get_stats [(⟨none, "a.pdf", some "hash-a", 10, "direct", "Hello again",
        1, 2, 9, true, none⟩ : ExtractionResult)]).total =
      (get_stats [rowHello]).total :=
  c4_upsert_idempotent [rowHello] rowHello2 9 [rowHello2] (fun _ => false) 9 _
    (by simp [storeInv]) (by decide) (by decide) rfl

/-! ## C7: text search -/

/-- C7 counterexample: the stored text "Hello World, stored text" does not
contain the query "hello" as a **case-sensitive** substring, yet
`search_text` returns its row — SQLite's default `LIKE` is
case-insensitive on ASCII letters. -/
theorem c7_counterexample :
    search_text [rowHello] "hello" 10 =
      [⟨"a.pdf", "direct", "Hello World, stored text", 5⟩] ∧
    caseSensContains "Hello World, stored text" "hello" = false := by
  constructor
  · decide
  · decide

/-- C7 (amended): `search_text st query limit` returns at most `limit`
rows, each derived from a stored row with `success = true` whose text
matches the SQLite `LIKE` pattern `'%query%'` (ASCII-case-insensitively,
with `%`/`_` in the query as wildcards — not a case-sensitive substring
match), each with a preview of at most 200 characters, ordered
most-recent-first by timestamp; and when the limit does not bind, every
matching successful row appears. -/
theorem c7_search_text_like (st : List ExtractionResult) (query : String)
    (limit : Nat) :
    (search_text st query limit).length ≤ limit ∧
    (∀ x ∈ search_text st query limit, ∃ r ∈ st, r.success = true ∧
      likeContains r.extracted_text query = true ∧ x = toSearchRow r) ∧
    (∀ x ∈ search_text st query limit, x.preview.data.length ≤ 200) ∧
    List.Pairwise (fun a b => b.timestamp ≤ a.timestamp)
      (search_text st query limit) ∧
    ((st.filter (fun r => r.success && likeContains r.extracted_text query)).length
        ≤ limit →
      ∀ r ∈ st, r.success = true → likeContains r.extracted_text query = true →
        toSearchRow r ∈ search_text st query limit) := by
  refine ⟨?_, ?_, ?_, ?_, ?_⟩
  · unfold search_text
    rw [List.length_map, List.length_take]
    exact min_le_left _ _
  · intro x hx
    unfold search_text at hx
    rcases List.mem_map.mp hx with ⟨y, hy, rfl⟩
    have hy2 : y ∈ sortDesc (st.filter
        (fun r => r.success && likeContains r.extracted_text query)) :=
      List.take_subset _ _ hy
    have hy3 := ((List.perm_insertionSort timeDesc _).mem_iff).mp hy2
    rcases List.mem_filter.mp hy3 with ⟨hmem, hpred⟩
    rw [Bool.and_eq_true] at hpred
    rcases hpred with ⟨hsucc, hlike⟩
    exact ⟨y, hmem, hsucc, hlike, rfl⟩
  · intro x hx
    unfold search_text at hx
    rcases List.mem_map.mp hx with ⟨y, _, rfl⟩
    unfold toSearchRow
    simp
  · unfold search_text
    apply List.pairwise_map.mpr
    exact ((List.sorted_insertionSort timeDesc _).sublist
      (List.take_sublist _ _) :)
  · intro hlen r hr hsucc hlike
    unfold search_text
    have hfl : r ∈ st.filter
        (fun r => r.success && likeContains r.extracted_text query) :=
      List.mem_filter.mpr ⟨hr, by rw [hsucc, hlike]; rfl⟩
    have hsort : r ∈ sortDesc (st.filter
        (fun r => r.success && likeContains r.extracted_text query)) :=
      ((List.perm_insertionSort timeDesc _).mem_iff).mpr hfl
    have hslen : (sortDesc (st.filter
        (fun r => r.success && likeContains r.extracted_text query))).length ≤ limit := by
      unfold sortDesc
      rw [(List.perm_insertionSort timeDesc _).length_eq]
      exact hlen
    rw [List.take_of_length_le hslen]
    exact List.mem_map.mpr ⟨r, hsort, rfl⟩

/-- C7 witness: on a concrete three-row store the result respects the
limit, and a matching successful row is returned when the limit does not
bind. -/
theorem c7_search_text_like_witness :
    (search_text store3 "o" 5).length ≤ 5 ∧
    toSearchRow rowOther ∈ search_text store3 "o" 5 :=
  ⟨(c7_search_text_like store3 "o" 5).1,
   (c7_search_text_like store3 "o" 5).2.2.2.2 (by decide) rowOther (by decide)
     (by decide) (by decide)⟩

/-! ## C6: failure isolation in `process_files` -/

/-- C6 counterexample: one panicked task (a `JoinError` from `task.await?`)
aborts the whole run: the second task's perfectly good outcome is neither
returned nor committed (the store stays empty). -/
theorem c6_counterexample :
    process_files [] [TaskResult.panicked "boom", TaskResult.ok rowHello]
      (fun _ => false) 7 = (Except.error "boom", []) := rfl

/-- When no task panicked, the collection loop returns exactly the Ok
outcomes in task order. -/
theorem collectResults_no_panic (tasks : List TaskResult)
    (h : tasks.all notPanicked = true) :
    collectResults tasks = Except.ok (okOutcomes tasks) := by
  induction tasks with
  | nil => rfl
  | cons t ts ih =>
    rw [List.all_cons, Bool.and_eq_true] at h
    cases t with
    | ok r =>
      unfold collectResults
      rw [show collectResults ts = Except.ok (okOutcomes ts) from ih h.2]
      rfl
    | err m =>
      unfold collectResults
      exact ih h.2
    | panicked m => exact Bool.noConfusion h.1

/-- A batch loop with no failing insert always commits. -/
theorem batchInsertLoop_no_fail (rs : List ExtractionResult) :
    ∀ (tx : List ExtractionResult) (i now : Nat),
      ∃ out, batchInsertLoop tx rs (fun _ => false) i now = Except.ok out := by
  induction rs with
  | nil => intro tx i now; exact ⟨tx, rfl⟩
  | cons r rs ih =>
    intro tx i now
    unfold batchInsertLoop
    simp only [if_neg]
    exact ih (insertRow tx r now) (i + 1) now

/-- C6 (amended): a task that merely returns an error (the `Err` arm of
`process_single_file`) is caught, logged and skipped, and the run goes on —
when no task panicked and the storage does not fail, `process_files`
returns all Ok outcomes and commits each of them to the store. A panicked
task, however, aborts the run before the batch commit (see the
counterexample). -/
theorem c6_no_panic_all_committed (st : List ExtractionResult)
    (tasks : List TaskResult) (now : Nat)
    (hnp : tasks.all notPanicked = true) :
    (process_files st tasks (fun _ => false) now).1 =
      Except.ok (okOutcomes tasks) ∧
    ∀ r ∈ okOutcomes tasks,
      ∃ q ∈ (process_files st tasks (fun _ => false) now).2,
        q.file_path = r.file_path ∧ q.file_hash = r.file_hash := by
  unfold process_files
  rw [collectResults_no_panic tasks hnp]
  dsimp only
  by_cases hemp : (okOutcomes tasks).isEmpty
  · rw [if_pos hemp]
    refine ⟨rfl, ?_⟩
    intro r hr
    rw [List.isEmpty_iff] at hemp
    rw [hemp] at hr
    cases hr
  · rw [if_neg hemp]
    rcases batchInsertLoop_no_fail (okOutcomes tasks) st 0 now with ⟨out, hout⟩
    unfold batch_insert
    rw [hout]
    exact ⟨rfl, fun r hr =>
      batchInsertLoop_visible (okOutcomes tasks) st (fun _ => false) 0 now out hout r hr⟩

/-- C6 witness: a run with one erroring task and one Ok task returns and
commits the Ok outcome. -/
theorem c6_no_panic_all_committed_witness :
    (process_files [] [TaskResult.err "bad file", TaskResult.ok rowHello]
        (fun _ => false) 4).1 =
      Except.ok (okOutcomes [TaskResult.err "bad file", TaskResult.ok rowHello]) ∧
    ∀ r ∈ okOutcomes [TaskResult.err "bad file", TaskResult.ok rowHello],
      ∃ q ∈ (process_files [] [TaskResult.err "bad file", TaskResult.ok rowHello]
          (fun _ => false) 4).2,
        q.file_path = r.file_path ∧ q.file_hash = r.file_hash :=
  c6_no_panic_all_committed [] [TaskResult.err "bad file", TaskResult.ok rowHello]
    4 (by decide)

/-! ## C8: the concurrency bound -/

/-- No task is running in the initial all-waiting state. -/
theorem inFlight_init (n k : Nat) :
    inFlight ⟨n, List.replicate k TaskPhase.waiting⟩ = 0 := by
  unfold inFlight
  induction k with
  | zero => rfl
  | succ m ih =>
    rw [List.replicate_succ, List.countP_cons]
    simp

/-- The permit invariant: free permits plus in-flight resolutions always
equal the configured permit count. -/
theorem sched_invariant (n k : Nat) (s : SchedState)
    (h : SchedReachable n k s) : s.permits + inFlight s = n := by
  induction h with
  | init => rw [inFlight_init]; rfl
  | @step s s2 hr hstep ih =>
    cases hstep with
    | acquire i hi hw hp =>
      have hw2 : s.phases[i] = TaskPhase.waiting :=
        (List.get_eq_getElem s.phases ⟨i, hi⟩).symm.trans hw
      have hcount := List.countP_set (fun p => p == TaskPhase.running)
        s.phases i TaskPhase.running hi
      rw [hw2] at hcount
      have hcount2 : List.countP (fun p => p == TaskPhase.running)
          (s.phases.set i TaskPhase.running) =
          List.countP (fun p => p == TaskPhase.running) s.phases + 1 := by
        rw [hcount]; simp
      unfold inFlight at ih ⊢
      dsimp only
      rw [hcount2]
      omega
    | finish i hi hrun =>
      have hr3 : s.phases[i] = TaskPhase.running :=
        (List.get_eq_getElem s.phases ⟨i, hi⟩).symm.trans hrun
      have hcount := List.countP_set (fun p => p == TaskPhase.running)
        s.phases i TaskPhase.done hi
      rw [hr3] at hcount
      have hpos : 0 < List.countP (fun p => p == TaskPhase.running) s.phases :=
        List.countP_pos_iff.mpr ⟨s.phases[i], List.getElem_mem hi, by rw [hr3]; rfl⟩
      have hcount2 : List.countP (fun p => p == TaskPhase.running)
          (s.phases.set i TaskPhase.done) =
          List.countP (fun p => p == TaskPhase.running) s.phases - 1 := by
        rw [hcount]; simp
      unfold inFlight at ih ⊢
      dsimp only
      rw [hcount2]
      omega

/-- C8: at no point in a run does the number of files with an in-flight
strategy-chain resolution exceed the configured `args.threads`: every task
holds exactly one permit of `Semaphore::new(args.threads)` for its entire
resolution (the model's `acquire`/`finish` transitions) and releases it
exactly once, so `inFlight` never exceeds the permit count. -/
theorem c8_concurrency_bound (args : Args) (k : Nat) (s : SchedState)
    (h : SchedReachable args.threads k s) : inFlight s ≤ args.threads := by
  have := sched_invariant args.threads k s h
  omega

/-- C8 witness: after one acquisition in a two-permit, three-file run, one
resolution is in flight, within the bound. -/
theorem c8_concurrency_bound_witness :
    inFlight ⟨1, [TaskPhase.running, TaskPhase.waiting, TaskPhase.waiting]⟩ ≤
      defaultArgs.threads :=
  c8_concurrency_bound defaultArgs 3
    ⟨1, [TaskPhase.running, TaskPhase.waiting, TaskPhase.waiting]⟩
    (SchedReachable.step SchedReachable.init
      (SchedStep.acquire ⟨2, List.replicate 3 TaskPhase.waiting⟩ 0
        (by decide) (by decide) (by decide)))


/-! ## C2: the fast fingerprint -/

/-- Taking `min k len` bytes is taking `k` bytes. -/
theorem btake_min (k len val : Nat) :
    btake (min k len) ⟨len, val⟩ = btake k ⟨len, val⟩ := by
  unfold btake
  have h : min (min k len) len = min k len := by omega
  rw [h]

/-- One unfolding of the chunk fold. -/
theorem shaFold_succ (p : Bytes) (hs : List Nat) (i c : Nat) :
    shaFold p hs i (c + 1) =
      shaFold p (processChunk hs (blockAt p i)) (i + 1) c := rfl

set_option maxRecDepth 4000 in
set_option exponentiation.threshold 5000 in
theorem c2sA0 : processChunk [1779033703, 3144134277, 1013904242, 2773480762, 1359893119, 2600822924, 528734635, 1541459225] (blockAt c2padA 0) = [3248211388, 1886541231, 3203859890, 4007005519, 2428546065, 2318272237, 1386859349, 1725695215] := by decide

set_option maxRecDepth 4000 in
set_option exponentiation.threshold 5000 in
theorem c2sA1 : processChunk [3248211388, 1886541231, 3203859890, 4007005519, 2428546065, 2318272237, 1386859349, 1725695215] (blockAt c2padA 1) = [1970444696, 3335226353, 675236279, 1844790701, 1597180474, 2904504949, 2431321665, 4255532658] := by decide

set_option maxRecDepth 4000 in
set_option exponentiation.threshold 5000 in
theorem c2sA2 : processChunk [1970444696, 3335226353, 675236279, 1844790701, 1597180474, 2904504949, 2431321665, 4255532658] (blockAt c2padA 2) = [1238495549, 3205621962, 135793702, 3605413109, 4116096202, 2693618275, 2986554865, 3006332599] := by decide

set_option maxRecDepth 4000 in
set_option exponentiation.threshold 5000 in
theorem c2sA3 : processChunk [1238495549, 3205621962, 135793702, 3605413109, 4116096202, 2693618275, 2986554865, 3006332599] (blockAt c2padA 3) = [1926217236, 1617342575, 3220272560, 534815026, 2235326071, 534430827, 3611928437, 3674475569] := by decide

set_option maxRecDepth 4000 in
set_option exponentiation.threshold 5000 in
theorem c2sA4 : processChunk [1926217236, 1617342575, 3220272560, 534815026, 2235326071, 534430827, 3611928437, 3674475569] (blockAt c2padA 4) = [2156403785, 3254365966, 3677164788, 3501416629, 1937011272, 411136373, 4135223994, 3393049869] := by decide

set_option maxRecDepth 4000 in
set_option exponentiation.threshold 5000 in
theorem c2sA5 : processChunk [2156403785, 3254365966, 3677164788, 3501416629, 1937011272, 411136373, 4135223994, 3393049869] (blockAt c2padA 5) = [859443856, 1719289306, 2266345506, 1783194693, 4086350169, 1159825932, 276818413, 1263414058] := by decide

set_option maxRecDepth 4000 in
set_option exponentiation.threshold 5000 in
theorem c2sA6 : processChunk [859443856, 1719289306, 2266345506, 1783194693, 4086350169, 1159825932, 276818413, 1263414058] (blockAt c2padA 6) = [1780296619, 3353975864, 288844259, 311372233, 3196386331, 3545919192, 3849551940, 4218330995] := by decide

set_option maxRecDepth 4000 in
set_option exponentiation.threshold 5000 in
theorem c2sA7 : processChunk [1780296619, 3353975864, 288844259, 311372233, 3196386331, 3545919192, 3849551940, 4218330995] (blockAt c2padA 7) = [1746868293, 32953770, 3408467167, 1787766324, 3468185928, 630705654, 3223705244, 3899316687] := by decide

set_option maxRecDepth 4000 in
set_option exponentiation.threshold 5000 in
theorem c2sA8 : processChunk [1746868293, 32953770, 3408467167, 1787766324, 3468185928, 630705654, 3223705244, 3899316687] (blockAt c2padA 8) = [2954062677, 669805894, 3289356061, 3823067599, 3299488874, 3337443118, 1224731243, 2308617370] := by decide

set_option maxRecDepth 4000 in
set_option exponentiation.threshold 5000 in
theorem c2sA9 : processChunk [2954062677, 669805894, 3289356061, 3823067599, 3299488874, 3337443118, 1224731243, 2308617370] (blockAt c2padA 9) = [628901004, 1742800616, 1080039751, 2357524865, 3054499372, 3416473361, 499554648, 2804371394] := by decide

set_option maxRecDepth 4000 in
set_option exponentiation.threshold 5000 in
theorem c2sA10 : processChunk [628901004, 1742800616, 1080039751, 2357524865, 3054499372, 3416473361, 499554648, 2804371394] (blockAt c2padA 10) = [1589679328, 392229427, 1228527291, 264634382, 561443742, 1129414491, 3424351216, 4168244374] := by decide

set_option maxRecDepth 4000 in
set_option exponentiation.threshold 5000 in
theorem c2sA11 : processChunk [1589679328, 392229427, 1228527291, 264634382, 561443742, 1129414491, 3424351216, 4168244374] (blockAt c2padA 11) = [305225568, 1604298002, 4047760823, 3706846828, 915319555, 3329488709, 2173943674, 1124981297] := by decide

set_option maxRecDepth 4000 in
set_option exponentiation.threshold 5000 in
theorem c2sA12 : processChunk [305225568, 1604298002, 4047760823, 3706846828, 915319555, 3329488709, 2173943674, 1124981297] (blockAt c2padA 12) = [1346262256, 4261106456, 961302468, 2845146778, 3679912262, 1227338041, 1427557374, 2644089149] := by decide

set_option maxRecDepth 4000 in
set_option exponentiation.threshold 5000 in
theorem c2sA13 : processChunk [1346262256, 4261106456, 961302468, 2845146778, 3679912262, 1227338041, 1427557374, 2644089149] (blockAt c2padA 13) = [331057694, 1598457561, 2768763786, 2975249292, 441655761, 1713518985, 4044953627, 1511065565] := by decide

set_option maxRecDepth 4000 in
set_option exponentiation.threshold 5000 in
theorem c2sA14 : processChunk [331057694, 1598457561, 2768763786, 2975249292, 441655761, 1713518985, 4044953627, 1511065565] (blockAt c2padA 14) = [2986728467, 2540103819, 2898854593, 2113711379, 3639688075, 3119482544, 2062149098, 2190382168] := by decide

set_option maxRecDepth 4000 in
set_option exponentiation.threshold 5000 in
theorem c2sA15 : processChunk [2986728467, 2540103819, 2898854593, 2113711379, 3639688075, 3119482544, 2062149098, 2190382168] (blockAt c2padA 15) = [77439748, 1587003489, 3633683189, 59958617, 1526768903, 2859586532, 3680535233, 129996775] := by decide

set_option maxRecDepth 4000 in
set_option exponentiation.threshold 5000 in
theorem c2sA16 : processChunk [77439748, 1587003489, 3633683189, 59958617, 1526768903, 2859586532, 3680535233, 129996775] (blockAt c2padA 16) = [2981459103, 875156774, 60330333, 3136861371, 4138507473, 61684116, 115248492, 1325447456] := by decide

set_option maxRecDepth 4000 in
/-- The SHA-256 state after all 17 chunks of the code-side padded hash input. -/
theorem c2hashA : sha256B (fastHashInput none c2content) = [2981459103, 875156774, 60330333, 3136861371, 4138507473, 61684116, 115248492, 1325447456] := by
  have hn : c2padA.len / 64 = 17 := by decide
  unfold sha256B
  rw [show sha256pad (fastHashInput none c2content) = c2padA from rfl, hn]
  calc shaFold c2padA [1779033703, 3144134277, 1013904242, 2773480762, 1359893119, 2600822924, 528734635, 1541459225] 0 17
    _ = shaFold c2padA [1779033703, 3144134277, 1013904242, 2773480762, 1359893119, 2600822924, 528734635, 1541459225] 0 (16 + 1) := rfl
    _ = shaFold c2padA [3248211388, 1886541231, 3203859890, 4007005519, 2428546065, 2318272237, 1386859349, 1725695215] 1 16 := by rw [shaFold_succ, c2sA0]
    _ = shaFold c2padA [3248211388, 1886541231, 3203859890, 4007005519, 2428546065, 2318272237, 1386859349, 1725695215] 1 (15 + 1) := rfl
    _ = shaFold c2padA [1970444696, 3335226353, 675236279, 1844790701, 1597180474, 2904504949, 2431321665, 4255532658] 2 15 := by rw [shaFold_succ, c2sA1]
    _ = shaFold c2padA [1970444696, 3335226353, 675236279, 1844790701, 1597180474, 2904504949, 2431321665, 4255532658] 2 (14 + 1) := rfl
    _ = shaFold c2padA [1238495549, 3205621962, 135793702, 3605413109, 4116096202, 2693618275, 2986554865, 3006332599] 3 14 := by rw [shaFold_succ, c2sA2]
    _ = shaFold c2padA [1238495549, 3205621962, 135793702, 3605413109, 4116096202, 2693618275, 2986554865, 3006332599] 3 (13 + 1) := rfl
    _ = shaFold c2padA [1926217236, 1617342575, 3220272560, 534815026, 2235326071, 534430827, 3611928437, 3674475569] 4 13 := by rw [shaFold_succ, c2sA3]
    _ = shaFold c2padA [1926217236, 1617342575, 3220272560, 534815026, 2235326071, 534430827, 3611928437, 3674475569] 4 (12 + 1) := rfl
    _ = shaFold c2padA [2156403785, 3254365966, 3677164788, 3501416629, 1937011272, 411136373, 4135223994, 3393049869] 5 12 := by rw [shaFold_succ, c2sA4]
    _ = shaFold c2padA [2156403785, 3254365966, 3677164788, 3501416629, 1937011272, 411136373, 4135223994, 3393049869] 5 (11 + 1) := rfl
    _ = shaFold c2padA [859443856, 1719289306, 2266345506, 1783194693, 4086350169, 1159825932, 276818413, 1263414058] 6 11 := by rw [shaFold_succ, c2sA5]
    _ = shaFold c2padA [859443856, 1719289306, 2266345506, 1783194693, 4086350169, 1159825932, 276818413, 1263414058] 6 (10 + 1) := rfl
    _ = shaFold c2padA [1780296619, 3353975864, 288844259, 311372233, 3196386331, 3545919192, 3849551940, 4218330995] 7 10 := by rw [shaFold_succ, c2sA6]
    _ = shaFold c2padA [1780296619, 3353975864, 288844259, 311372233, 3196386331, 3545919192, 3849551940, 4218330995] 7 (9 + 1) := rfl
    _ = shaFold c2padA [1746868293, 32953770, 3408467167, 1787766324, 3468185928, 630705654, 3223705244, 3899316687] 8 9 := by rw [shaFold_succ, c2sA7]
    _ = shaFold c2padA [1746868293, 32953770, 3408467167, 1787766324, 3468185928, 630705654, 3223705244, 3899316687] 8 (8 + 1) := rfl
    _ = shaFold c2padA [2954062677, 669805894, 3289356061, 3823067599, 3299488874, 3337443118, 1224731243, 2308617370] 9 8 := by rw [shaFold_succ, c2sA8]
    _ = shaFold c2padA [2954062677, 669805894, 3289356061, 3823067599, 3299488874, 3337443118, 1224731243, 2308617370] 9 (7 + 1) := rfl
    _ = shaFold c2padA [628901004, 1742800616, 1080039751, 2357524865, 3054499372, 3416473361, 499554648, 2804371394] 10 7 := by rw [shaFold_succ, c2sA9]
    _ = shaFold c2padA [628901004, 1742800616, 1080039751, 2357524865, 3054499372, 3416473361, 499554648, 2804371394] 10 (6 + 1) := rfl
    _ = shaFold c2padA [1589679328, 392229427, 1228527291, 264634382, 561443742, 1129414491, 3424351216, 4168244374] 11 6 := by rw [shaFold_succ, c2sA10]
    _ = shaFold c2padA [1589679328, 392229427, 1228527291, 264634382, 561443742, 1129414491, 3424351216, 4168244374] 11 (5 + 1) := rfl
    _ = shaFold c2padA [305225568, 1604298002, 4047760823, 3706846828, 915319555, 3329488709, 2173943674, 1124981297] 12 5 := by rw [shaFold_succ, c2sA11]
    _ = shaFold c2padA [305225568, 1604298002, 4047760823, 3706846828, 915319555, 3329488709, 2173943674, 1124981297] 12 (4 + 1) := rfl
    _ = shaFold c2padA [1346262256, 4261106456, 961302468, 2845146778, 3679912262, 1227338041, 1427557374, 2644089149] 13 4 := by rw [shaFold_succ, c2sA12]
    _ = shaFold c2padA [1346262256, 4261106456, 961302468, 2845146778, 3679912262, 1227338041, 1427557374, 2644089149] 13 (3 + 1) := rfl
    _ = shaFold c2padA [331057694, 1598457561, 2768763786, 2975249292, 441655761, 1713518985, 4044953627, 1511065565] 14 3 := by rw [shaFold_succ, c2sA13]
    _ = shaFold c2padA [331057694, 1598457561, 2768763786, 2975249292, 441655761, 1713518985, 4044953627, 1511065565] 14 (2 + 1) := rfl
    _ = shaFold c2padA [2986728467, 2540103819, 2898854593, 2113711379, 3639688075, 3119482544, 2062149098, 2190382168] 15 2 := by rw [shaFold_succ, c2sA14]
    _ = shaFold c2padA [2986728467, 2540103819, 2898854593, 2113711379, 3639688075, 3119482544, 2062149098, 2190382168] 15 (1 + 1) := rfl
    _ = shaFold c2padA [77439748, 1587003489, 3633683189, 59958617, 1526768903, 2859586532, 3680535233, 129996775] 16 1 := by rw [shaFold_succ, c2sA15]
    _ = shaFold c2padA [77439748, 1587003489, 3633683189, 59958617, 1526768903, 2859586532, 3680535233, 129996775] 16 (0 + 1) := rfl
    _ = shaFold c2padA [2981459103, 875156774, 60330333, 3136861371, 4138507473, 61684116, 115248492, 1325447456] 17 0 := by rw [shaFold_succ, c2sA16]
    _ = [2981459103, 875156774, 60330333, 3136861371, 4138507473, 61684116, 115248492, 1325447456] := rfl

set_option maxRecDepth 4000 in
set_option exponentiation.threshold 5000 in
theorem c2sB0 : processChunk [1779033703, 3144134277, 1013904242, 2773480762, 1359893119, 2600822924, 528734635, 1541459225] (blockAt c2padB 0) = [3248211388, 1886541231, 3203859890, 4007005519, 2428546065, 2318272237, 1386859349, 1725695215] := by decide

set_option maxRecDepth 4000 in
set_option exponentiation.threshold 5000 in
theorem c2sB1 : processChunk [3248211388, 1886541231, 3203859890, 4007005519, 2428546065, 2318272237, 1386859349, 1725695215] (blockAt c2padB 1) = [1970444696, 3335226353, 675236279, 1844790701, 1597180474, 2904504949, 2431321665, 4255532658] := by decide

set_option maxRecDepth 4000 in
set_option exponentiation.threshold 5000 in
theorem c2sB2 : processChunk [1970444696, 3335226353, 675236279, 1844790701, 1597180474, 2904504949, 2431321665, 4255532658] (blockAt c2padB 2) = [1238495549, 3205621962, 135793702, 3605413109, 4116096202, 2693618275, 2986554865, 3006332599] := by decide

set_option maxRecDepth 4000 in
set_option exponentiation.threshold 5000 in
theorem c2sB3 : processChunk [1238495549, 3205621962, 135793702, 3605413109, 4116096202, 2693618275, 2986554865, 3006332599] (blockAt c2padB 3) = [1926217236, 1617342575, 3220272560, 534815026, 2235326071, 534430827, 3611928437, 3674475569] := by decide

set_option maxRecDepth 4000 in
set_option exponentiation.threshold 5000 in
theorem c2sB4 : processChunk [1926217236, 1617342575, 3220272560, 534815026, 2235326071, 534430827, 3611928437, 3674475569] (blockAt c2padB 4) = [2156403785, 3254365966, 3677164788, 3501416629, 1937011272, 411136373, 4135223994, 3393049869] := by decide

set_option maxRecDepth 4000 in
set_option exponentiation.threshold 5000 in
theorem c2sB5 : processChunk [2156403785, 3254365966, 3677164788, 3501416629, 1937011272, 411136373, 4135223994, 3393049869] (blockAt c2padB 5) = [859443856, 1719289306, 2266345506, 1783194693, 4086350169, 1159825932, 276818413, 1263414058] := by decide

set_option maxRecDepth 4000 in
set_option exponentiation.threshold 5000 in
theorem c2sB6 : processChunk [859443856, 1719289306, 2266345506, 1783194693, 4086350169, 1159825932, 276818413, 1263414058] (blockAt c2padB 6) = [1780296619, 3353975864, 288844259, 311372233, 3196386331, 3545919192, 3849551940, 4218330995] := by decide

set_option maxRecDepth 4000 in
set_option exponentiation.threshold 5000 in
theorem c2sB7 : processChunk [1780296619, 3353975864, 288844259, 311372233, 3196386331, 3545919192, 3849551940, 4218330995] (blockAt c2padB 7) = [1746868293, 32953770, 3408467167, 1787766324, 3468185928, 630705654, 3223705244, 3899316687] := by decide

set_option maxRecDepth 4000 in
set_option exponentiation.threshold 5000 in
theorem c2sB8 : processChunk [1746868293, 32953770, 3408467167, 1787766324, 3468185928, 630705654, 3223705244, 3899316687] (blockAt c2padB 8) = [2954062677, 669805894, 3289356061, 3823067599, 3299488874, 3337443118, 1224731243, 2308617370] := by decide

set_option maxRecDepth 4000 in
set_option exponentiation.threshold 5000 in
theorem c2sB9 : processChunk [2954062677, 669805894, 3289356061, 3823067599, 3299488874, 3337443118, 1224731243, 2308617370] (blockAt c2padB 9) = [628901004, 1742800616, 1080039751, 2357524865, 3054499372, 3416473361, 499554648, 2804371394] := by decide

set_option maxRecDepth 4000 in
set_option exponentiation.threshold 5000 in
theorem c2sB10 : processChunk [628901004, 1742800616, 1080039751, 2357524865, 3054499372, 3416473361, 499554648, 2804371394] (blockAt c2padB 10) = [1589679328, 392229427, 1228527291, 264634382, 561443742, 1129414491, 3424351216, 4168244374] := by decide

set_option maxRecDepth 4000 in
set_option exponentiation.threshold 5000 in
theorem c2sB11 : processChunk [1589679328, 392229427, 1228527291, 264634382, 561443742, 1129414491, 3424351216, 4168244374] (blockAt c2padB 11) = [305225568, 1604298002, 4047760823, 3706846828, 915319555, 3329488709, 2173943674, 1124981297] := by decide

set_option maxRecDepth 4000 in
set_option exponentiation.threshold 5000 in
theorem c2sB12 : processChunk [305225568, 1604298002, 4047760823, 3706846828, 915319555, 3329488709, 2173943674, 1124981297] (blockAt c2padB 12) = [1346262256, 4261106456, 961302468, 2845146778, 3679912262, 1227338041, 1427557374, 2644089149] := by decide

set_option maxRecDepth 4000 in
set_option exponentiation.threshold 5000 in
theorem c2sB13 : processChunk [1346262256, 4261106456, 961302468, 2845146778, 3679912262, 1227338041, 1427557374, 2644089149] (blockAt c2padB 13) = [331057694, 1598457561, 2768763786, 2975249292, 441655761, 1713518985, 4044953627, 1511065565] := by decide

set_option maxRecDepth 4000 in
set_option exponentiation.threshold 5000 in
theorem c2sB14 : processChunk [331057694, 1598457561, 2768763786, 2975249292, 441655761, 1713518985, 4044953627, 1511065565] (blockAt c2padB 14) = [2986728467, 2540103819, 2898854593, 2113711379, 3639688075, 3119482544, 2062149098, 2190382168] := by decide

set_option maxRecDepth 4000 in
set_option exponentiation.threshold 5000 in
theorem c2sB15 : processChunk [2986728467, 2540103819, 2898854593, 2113711379, 3639688075, 3119482544, 2062149098, 2190382168] (blockAt c2padB 15) = [77439748, 1587003489, 3633683189, 59958617, 1526768903, 2859586532, 3680535233, 129996775] := by decide

set_option maxRecDepth 4000 in
set_option exponentiation.threshold 5000 in
theorem c2sB16 : processChunk [77439748, 1587003489, 3633683189, 59958617, 1526768903, 2859586532, 3680535233, 129996775] (blockAt c2padB 16) = [3479341911, 3911189121, 3388221777, 1205084111, 4235073051, 2205417140, 3398150499, 374103646] := by decide

set_option maxRecDepth 4000 in
set_option exponentiation.threshold 5000 in
theorem c2sB17 : processChunk [3479341911, 3911189121, 3388221777, 1205084111, 4235073051, 2205417140, 3398150499, 374103646] (blockAt c2padB 17) = [3494664934, 231575217, 1093124148, 4142691764, 310645282, 92311621, 872828209, 3966364090] := by decide

set_option maxRecDepth 4000 in
set_option exponentiation.threshold 5000 in
theorem c2sB18 : processChunk [3494664934, 231575217, 1093124148, 4142691764, 310645282, 92311621, 872828209, 3966364090] (blockAt c2padB 18) = [2726282608, 2327225688, 1723329712, 2699915973, 3472575166, 552915699, 3901595655, 2564282685] := by decide

set_option maxRecDepth 4000 in
set_option exponentiation.threshold 5000 in
theorem c2sB19 : processChunk [2726282608, 2327225688, 1723329712, 2699915973, 3472575166, 552915699, 3901595655, 2564282685] (blockAt c2padB 19) = [3637711593, 3452156683, 2917026189, 2508775513, 236366316, 2869118006, 3658513566, 1863149782] := by decide

set_option maxRecDepth 4000 in
set_option exponentiation.threshold 5000 in
theorem c2sB20 : processChunk [3637711593, 3452156683, 2917026189, 2508775513, 236366316, 2869118006, 3658513566, 1863149782] (blockAt c2padB 20) = [845827033, 2096742953, 4003961850, 408423401, 2373387984, 1494812188, 2512760023, 3308609714] := by decide

set_option maxRecDepth 4000 in
set_option exponentiation.threshold 5000 in
theorem c2sB21 : processChunk [845827033, 2096742953, 4003961850, 408423401, 2373387984, 1494812188, 2512760023, 3308609714] (blockAt c2padB 21) = [1277195060, 1543073868, 481922260, 2751410523, 1670701813, 365535927, 2272729413, 895121034] := by decide

set_option maxRecDepth 4000 in
set_option exponentiation.threshold 5000 in
theorem c2sB22 : processChunk [1277195060, 1543073868, 481922260, 2751410523, 1670701813, 365535927, 2272729413, 895121034] (blockAt c2padB 22) = [902258304, 2588226995, 409096269, 1841240491, 3383632109, 2452798219, 4087614110, 1498639769] := by decide

set_option maxRecDepth 4000 in
set_option exponentiation.threshold 5000 in
theorem c2sB23 : processChunk [902258304, 2588226995, 409096269, 1841240491, 3383632109, 2452798219, 4087614110, 1498639769] (blockAt c2padB 23) = [3334408931, 60402622, 4248834173, 2759260948, 4179738897, 2020932799, 3103989578, 2455228013] := by decide

set_option maxRecDepth 4000 in
set_option exponentiation.threshold 5000 in
theorem c2sB24 : processChunk [3334408931, 60402622, 4248834173, 2759260948, 4179738897, 2020932799, 3103989578, 2455228013] (blockAt c2padB 24) = [1684001059, 148421714, 1810340459, 2629157816, 1925269335, 622283456, 1818535526, 191730783] := by decide

set_option maxRecDepth 4000 in
set_option exponentiation.threshold 5000 in
theorem c2sB25 : processChunk [1684001059, 148421714, 1810340459, 2629157816, 1925269335, 622283456, 1818535526, 191730783] (blockAt c2padB 25) = [3791790673, 121935226, 2226590099, 3418946636, 2675946837, 3682495126, 1422244416, 1276409529] := by decide

set_option maxRecDepth 4000 in
set_option exponentiation.threshold 5000 in
theorem c2sB26 : processChunk [3791790673, 121935226, 2226590099, 3418946636, 2675946837, 3682495126, 1422244416, 1276409529] (blockAt c2padB 26) = [3212424135, 4201114277, 4232806671, 4074769623, 2105678560, 679615834, 3353761718, 2786463499] := by decide

set_option maxRecDepth 4000 in
set_option exponentiation.threshold 5000 in
theorem c2sB27 : processChunk [3212424135, 4201114277, 4232806671, 4074769623, 2105678560, 679615834, 3353761718, 2786463499] (blockAt c2padB 27) = [1585997615, 2396499838, 559644058, 2899864586, 3979209120, 4202340433, 670082945, 589072853] := by decide

set_option maxRecDepth 4000 in
set_option exponentiation.threshold 5000 in
theorem c2sB28 : processChunk [1585997615, 2396499838, 559644058, 2899864586, 3979209120, 4202340433, 670082945, 589072853] (blockAt c2padB 28) = [67307336, 2650289308, 2540570780, 981558361, 3352524952, 3322672149, 1730698830, 4240503886] := by decide

set_option maxRecDepth 4000 in
set_option exponentiation.threshold 5000 in
theorem c2sB29 : processChunk [67307336, 2650289308, 2540570780, 981558361, 3352524952, 3322672149, 1730698830, 4240503886] (blockAt c2padB 29) = [2925630973, 3508292418, 2208036973, 286272155, 1736693715, 1403130288, 1937552460, 162939574] := by decide

set_option maxRecDepth 4000 in
set_option exponentiation.threshold 5000 in
theorem c2sB30 : processChunk [2925630973, 3508292418, 2208036973, 286272155, 1736693715, 1403130288, 1937552460, 162939574] (blockAt c2padB 30) = [2107178403, 1242995484, 2106372267, 1054505493, 2638039665, 3030857954, 121986749, 620584828] := by decide

set_option maxRecDepth 4000 in
set_option exponentiation.threshold 5000 in
theorem c2sB31 : processChunk [2107178403, 1242995484, 2106372267, 1054505493, 2638039665, 3030857954, 121986749, 620584828] (blockAt c2padB 31) = [3182093829, 3543986374, 2198591852, 1935676464, 3870756826, 1908313840, 1331227481, 2075273081] := by decide

set_option maxRecDepth 4000 in
set_option exponentiation.threshold 5000 in
theorem c2sB32 : processChunk [3182093829, 3543986374, 2198591852, 1935676464, 3870756826, 1908313840, 1331227481, 2075273081] (blockAt c2padB 32) = [341696917, 2605097117, 3686798144, 3523585462, 701417737, 3185347812, 2239951397, 2375223445] := by decide

set_option maxRecDepth 4000 in
/-- The SHA-256 state after all 33 chunks of the claim-side padded hash input. -/
theorem c2hashB : sha256B (claimedFastHashInput none c2content) = [341696917, 2605097117, 3686798144, 3523585462, 701417737, 3185347812, 2239951397, 2375223445] := by
  have hn : c2padB.len / 64 = 33 := by decide
  unfold sha256B
  rw [show sha256pad (claimedFastHashInput none c2content) = c2padB from rfl, hn]
  calc shaFold c2padB [1779033703, 3144134277, 1013904242, 2773480762, 1359893119, 2600822924, 528734635, 1541459225] 0 33
    _ = shaFold c2padB [1779033703, 3144134277, 1013904242, 2773480762, 1359893119, 2600822924, 528734635, 1541459225] 0 (32 + 1) := rfl
    _ = shaFold c2padB [3248211388, 1886541231, 3203859890, 4007005519, 2428546065, 2318272237, 1386859349, 1725695215] 1 32 := by rw [shaFold_succ, c2sB0]
    _ = shaFold c2padB [3248211388, 1886541231, 3203859890, 4007005519, 2428546065, 2318272237, 1386859349, 1725695215] 1 (31 + 1) := rfl
    _ = shaFold c2padB [1970444696, 3335226353, 675236279, 1844790701, 1597180474, 2904504949, 2431321665, 4255532658] 2 31 := by rw [shaFold_succ, c2sB1]
    _ = shaFold c2padB [1970444696, 3335226353, 675236279, 1844790701, 1597180474, 2904504949, 2431321665, 4255532658] 2 (30 + 1) := rfl
    _ = shaFold c2padB [1238495549, 3205621962, 135793702, 3605413109, 4116096202, 2693618275, 2986554865, 3006332599] 3 30 := by rw [shaFold_succ, c2sB2]
    _ = shaFold c2padB [1238495549, 3205621962, 135793702, 3605413109, 4116096202, 2693618275, 2986554865, 3006332599] 3 (29 + 1) := rfl
    _ = shaFold c2padB [1926217236, 1617342575, 3220272560, 534815026, 2235326071, 534430827, 3611928437, 3674475569] 4 29 := by rw [shaFold_succ, c2sB3]
    _ = shaFold c2padB [1926217236, 1617342575, 3220272560, 534815026, 2235326071, 534430827, 3611928437, 3674475569] 4 (28 + 1) := rfl
    _ = shaFold c2padB [2156403785, 3254365966, 3677164788, 3501416629, 1937011272, 411136373, 4135223994, 3393049869] 5 28 := by rw [shaFold_succ, c2sB4]
    _ = shaFold c2padB [2156403785, 3254365966, 3677164788, 3501416629, 1937011272, 411136373, 4135223994, 3393049869] 5 (27 + 1) := rfl
    _ = shaFold c2padB [859443856, 1719289306, 2266345506, 1783194693, 4086350169, 1159825932, 276818413, 1263414058] 6 27 := by rw [shaFold_succ, c2sB5]
    _ = shaFold c2padB [859443856, 1719289306, 2266345506, 1783194693, 4086350169, 1159825932, 276818413, 1263414058] 6 (26 + 1) := rfl
    _ = shaFold c2padB [1780296619, 3353975864, 288844259, 311372233, 3196386331, 3545919192, 3849551940, 4218330995] 7 26 := by rw [shaFold_succ, c2sB6]
    _ = shaFold c2padB [1780296619, 3353975864, 288844259, 311372233, 3196386331, 3545919192, 3849551940, 4218330995] 7 (25 + 1) := rfl
    _ = shaFold c2padB [1746868293, 32953770, 3408467167, 1787766324, 3468185928, 630705654, 3223705244, 3899316687] 8 25 := by rw [shaFold_succ, c2sB7]
    _ = shaFold c2padB [1746868293, 32953770, 3408467167, 1787766324, 3468185928, 630705654, 3223705244, 3899316687] 8 (24 + 1) := rfl
    _ = shaFold c2padB [2954062677, 669805894, 3289356061, 3823067599, 3299488874, 3337443118, 1224731243, 2308617370] 9 24 := by rw [shaFold_succ, c2sB8]
    _ = shaFold c2padB [2954062677, 669805894, 3289356061, 3823067599, 3299488874, 3337443118, 1224731243, 2308617370] 9 (23 + 1) := rfl
    _ = shaFold c2padB [628901004, 1742800616, 1080039751, 2357524865, 3054499372, 3416473361, 499554648, 2804371394] 10 23 := by rw [shaFold_succ, c2sB9]
    _ = shaFold c2padB [628901004, 1742800616, 1080039751, 2357524865, 3054499372, 3416473361, 499554648, 2804371394] 10 (22 + 1) := rfl
    _ = shaFold c2padB [1589679328, 392229427, 1228527291, 264634382, 561443742, 1129414491, 3424351216, 4168244374] 11 22 := by rw [shaFold_succ, c2sB10]
    _ = shaFold c2padB [1589679328, 392229427, 1228527291, 264634382, 561443742, 1129414491, 3424351216, 4168244374] 11 (21 + 1) := rfl
    _ = shaFold c2padB [305225568, 1604298002, 4047760823, 3706846828, 915319555, 3329488709, 2173943674, 1124981297] 12 21 := by rw [shaFold_succ, c2sB11]
    _ = shaFold c2padB [305225568, 1604298002, 4047760823, 3706846828, 915319555, 3329488709, 2173943674, 1124981297] 12 (20 + 1) := rfl
    _ = shaFold c2padB [1346262256, 4261106456, 961302468, 2845146778, 3679912262, 1227338041, 1427557374, 2644089149] 13 20 := by rw [shaFold_succ, c2sB12]
    _ = shaFold c2padB [1346262256, 4261106456, 961302468, 2845146778, 3679912262, 1227338041, 1427557374, 2644089149] 13 (19 + 1) := rfl
    _ = shaFold c2padB [331057694, 1598457561, 2768763786, 2975249292, 441655761, 1713518985, 4044953627, 1511065565] 14 19 := by rw [shaFold_succ, c2sB13]
    _ = shaFold c2padB [331057694, 1598457561, 2768763786, 2975249292, 441655761, 1713518985, 4044953627, 1511065565] 14 (18 + 1) := rfl
    _ = shaFold c2padB [2986728467, 2540103819, 2898854593, 2113711379, 3639688075, 3119482544, 2062149098, 2190382168] 15 18 := by rw [shaFold_succ, c2sB14]
    _ = shaFold c2padB [2986728467, 2540103819, 2898854593, 2113711379, 3639688075, 3119482544, 2062149098, 2190382168] 15 (17 + 1) := rfl
    _ = shaFold c2padB [77439748, 1587003489, 3633683189, 59958617, 1526768903, 2859586532, 3680535233, 129996775] 16 17 := by rw [shaFold_succ, c2sB15]
    _ = shaFold c2padB [77439748, 1587003489, 3633683189, 59958617, 1526768903, 2859586532, 3680535233, 129996775] 16 (16 + 1) := rfl
    _ = shaFold c2padB [3479341911, 3911189121, 3388221777, 1205084111, 4235073051, 2205417140, 3398150499, 374103646] 17 16 := by rw [shaFold_succ, c2sB16]
    _ = shaFold c2padB [3479341911, 3911189121, 3388221777, 1205084111, 4235073051, 2205417140, 3398150499, 374103646] 17 (15 + 1) := rfl
    _ = shaFold c2padB [3494664934, 231575217, 1093124148, 4142691764, 310645282, 92311621, 872828209, 3966364090] 18 15 := by rw [shaFold_succ, c2sB17]
    _ = shaFold c2padB [3494664934, 231575217, 1093124148, 4142691764, 310645282, 92311621, 872828209, 3966364090] 18 (14 + 1) := rfl
    _ = shaFold c2padB [2726282608, 2327225688, 1723329712, 2699915973, 3472575166, 552915699, 3901595655, 2564282685] 19 14 := by rw [shaFold_succ, c2sB18]
    _ = shaFold c2padB [2726282608, 2327225688, 1723329712, 2699915973, 3472575166, 552915699, 3901595655, 2564282685] 19 (13 + 1) := rfl
    _ = shaFold c2padB [3637711593, 3452156683, 2917026189, 2508775513, 236366316, 2869118006, 3658513566, 1863149782] 20 13 := by rw [shaFold_succ, c2sB19]
    _ = shaFold c2padB [3637711593, 3452156683, 2917026189, 2508775513, 236366316, 2869118006, 3658513566, 1863149782] 20 (12 + 1) := rfl
    _ = shaFold c2padB [845827033, 2096742953, 4003961850, 408423401, 2373387984, 1494812188, 2512760023, 3308609714] 21 12 := by rw [shaFold_succ, c2sB20]
    _ = shaFold c2padB [845827033, 2096742953, 4003961850, 408423401, 2373387984, 1494812188, 2512760023, 3308609714] 21 (11 + 1) := rfl
    _ = shaFold c2padB [1277195060, 1543073868, 481922260, 2751410523, 1670701813, 365535927, 2272729413, 895121034] 22 11 := by rw [shaFold_succ, c2sB21]
    _ = shaFold c2padB [1277195060, 1543073868, 481922260, 2751410523, 1670701813, 365535927, 2272729413, 895121034] 22 (10 + 1) := rfl
    _ = shaFold c2padB [902258304, 2588226995, 409096269, 1841240491, 3383632109, 2452798219, 4087614110, 1498639769] 23 10 := by rw [shaFold_succ, c2sB22]
    _ = shaFold c2padB [902258304, 2588226995, 409096269, 1841240491, 3383632109, 2452798219, 4087614110, 1498639769] 23 (9 + 1) := rfl
    _ = shaFold c2padB [3334408931, 60402622, 4248834173, 2759260948, 4179738897, 2020932799, 3103989578, 2455228013] 24 9 := by rw [shaFold_succ, c2sB23]
    _ = shaFold c2padB [3334408931, 60402622, 4248834173, 2759260948, 4179738897, 2020932799, 3103989578, 2455228013] 24 (8 + 1) := rfl
    _ = shaFold c2padB [1684001059, 148421714, 1810340459, 2629157816, 1925269335, 622283456, 1818535526, 191730783] 25 8 := by rw [shaFold_succ, c2sB24]
    _ = shaFold c2padB [1684001059, 148421714, 1810340459, 2629157816, 1925269335, 622283456, 1818535526, 191730783] 25 (7 + 1) := rfl
    _ = shaFold c2padB [3791790673, 121935226, 2226590099, 3418946636, 2675946837, 3682495126, 1422244416, 1276409529] 26 7 := by rw [shaFold_succ, c2sB25]
    _ = shaFold c2padB [3791790673, 121935226, 2226590099, 3418946636, 2675946837, 3682495126, 1422244416, 1276409529] 26 (6 + 1) := rfl
    _ = shaFold c2padB [3212424135, 4201114277, 4232806671, 4074769623, 2105678560, 679615834, 3353761718, 2786463499] 27 6 := by rw [shaFold_succ, c2sB26]
    _ = shaFold c2padB [3212424135, 4201114277, 4232806671, 4074769623, 2105678560, 679615834, 3353761718, 2786463499] 27 (5 + 1) := rfl
    _ = shaFold c2padB [1585997615, 2396499838, 559644058, 2899864586, 3979209120, 4202340433, 670082945, 589072853] 28 5 := by rw [shaFold_succ, c2sB27]
    _ = shaFold c2padB [1585997615, 2396499838, 559644058, 2899864586, 3979209120, 4202340433, 670082945, 589072853] 28 (4 + 1) := rfl
    _ = shaFold c2padB [67307336, 2650289308, 2540570780, 981558361, 3352524952, 3322672149, 1730698830, 4240503886] 29 4 := by rw [shaFold_succ, c2sB28]
    _ = shaFold c2padB [67307336, 2650289308, 2540570780, 981558361, 3352524952, 3322672149, 1730698830, 4240503886] 29 (3 + 1) := rfl
    _ = shaFold c2padB [2925630973, 3508292418, 2208036973, 286272155, 1736693715, 1403130288, 1937552460, 162939574] 30 3 := by rw [shaFold_succ, c2sB29]
    _ = shaFold c2padB [2925630973, 3508292418, 2208036973, 286272155, 1736693715, 1403130288, 1937552460, 162939574] 30 (2 + 1) := rfl
    _ = shaFold c2padB [2107178403, 1242995484, 2106372267, 1054505493, 2638039665, 3030857954, 121986749, 620584828] 31 2 := by rw [shaFold_succ, c2sB30]
    _ = shaFold c2padB [2107178403, 1242995484, 2106372267, 1054505493, 2638039665, 3030857954, 121986749, 620584828] 31 (1 + 1) := rfl
    _ = shaFold c2padB [3182093829, 3543986374, 2198591852, 1935676464, 3870756826, 1908313840, 1331227481, 2075273081] 32 1 := by rw [shaFold_succ, c2sB31]
    _ = shaFold c2padB [3182093829, 3543986374, 2198591852, 1935676464, 3870756826, 1908313840, 1331227481, 2075273081] 32 (0 + 1) := rfl
    _ = shaFold c2padB [341696917, 2605097117, 3686798144, 3523585462, 701417737, 3185347812, 2239951397, 2375223445] 33 0 := by rw [shaFold_succ, c2sB32]
    _ = [341696917, 2605097117, 3686798144, 3523585462, 701417737, 3185347812, 2239951397, 2375223445] := rfl

/-- The code-side fast fingerprint of the 1030-byte file. -/
theorem c2hexA : calculate_fast_hash none c2content = "b1b5749f3429d5260398915dbaf8b4bbf6ac9cd103ad399406de8d6c4f00b920" := by
  unfold calculate_fast_hash sha256hexB
  rw [c2hashA]
  decide

/-- The claim-side fast fingerprint of the 1030-byte file. -/
theorem c2hexB : claimedFastHash none c2content = "145de1959b46a09ddbc01340d205a5b629cec909bddc8ce48582f2258d930895" := by
  unfold claimedFastHash sha256hexB
  rw [c2hashB]
  decide

/-- C2 counterexample: on a 1030-byte file (length strictly between 1024
and 2048), the fingerprint the code computes differs from the SHA-256 hex
digest of "length, then first 1024 bytes, then last 1024 bytes" that the
claim describes: `last_chunk_start = max(1024, len - 1024)` starts the
second chunk at offset 1024, so the overlapping bytes are hashed once, not
twice — the overlap is deduplicated away, not preserved. -/
theorem c2_counterexample :
    calculate_fast_hash none c2content ≠ claimedFastHash none c2content := by
  rw [c2hexA, c2hexB]
  decide

/-- C2 (amended): for every readable file (a well-formed byte string), the
fast fingerprint is the SHA-256 hex digest of the file length and
modification time followed by the first `min 1024 len` bytes and, when the
file exceeds 1024 bytes, the bytes from offset `max 1024 (len - 1024)` to
the end: the last 1024 bytes when `len ≥ 2048`, and the remainder after the
first chunk — with no overlap — when `1024 < len < 2048`. -/
theorem c2_fast_hash_amended (mtime : Option Nat) (content : Bytes)
    (hwf : content.val < 256 ^ content.len) :
    calculate_fast_hash mtime content =
      sha256hexB (amendedFastHashInput mtime content) := by
  rcases content with ⟨len, val⟩
  suffices h : fastHashInput mtime ⟨len, val⟩ = amendedFastHashInput mtime ⟨len, val⟩ by
    unfold calculate_fast_hash
    rw [h]
  unfold fastHashInput amendedFastHashInput
  dsimp only
  congr 1
  congr 1
  by_cases h0 : 0 < len
  · rw [if_pos h0]
    by_cases h1 : 1024 < len
    · rw [if_pos h1, if_pos h1]
      by_cases h2 : 2048 ≤ len
      · rw [if_pos h2]
        have hmax : max 1024 (len - 1024) = len - 1024 := by omega
        rw [hmax, btake_min]
      · rw [if_neg h2]
        have hmax : max 1024 (len - 1024) = 1024 := by omega
        rw [hmax, btake_min]
    · rw [if_neg h1, if_neg h1, btake_min]
  · have hl : len = 0 := by omega
    subst hl
    have hv : val = 0 := by simpa using hwf
    subst hv
    rfl

/-- C2 witness for the amended statement: a concrete well-formed 3-byte
file. -/
theorem c2_fast_hash_amended_witness :
    calculate_fast_hash (some 1700000000) ⟨3, 6382179⟩ =
      sha256hexB (amendedFastHashInput (some 1700000000) ⟨3, 6382179⟩) :=
  c2_fast_hash_amended (some 1700000000) ⟨3, 6382179⟩ (by decide)
